import Mathlib

/-!
Verification of the ia-crm core against its specification.

This file gives a shallow embedding, in Lean 4, of the parts of the
ia-crm code base that the checked claims are about:

* `backend/app/services/audit_engine.py`   (audit_client)
* `backend/app/services/recommendation_engine.py`
  (_product_popularity, _rebuy_candidates, _cross_sell_candidates,
   _upsell_candidates, _build_recommendations_for_client, _compute_score,
   SCORING_WEIGHTS, generate_recommendations_run)
* `backend/app/services/scenario_service.py` (ScenarioService.decide)
* `backend/app/services/rfm_service.py`      (compute_rfm_for_tenant)
* `backend/app/services/cluster_service.py`  (kmeans, compute_clusters_for_tenant)
* `etl/ingest_runner.py`                     (_validate_contract, run_ingestion)

Modelling conventions:
* Python floats are modelled as rationals (the arithmetic used by the
  claims is exact at the evaluated inputs);
* datetimes are modelled as integers counting days (the code only ever
  uses whole-day differences through `.days`);
* SQL tables are lists of record rows; queries are list filters;
* JSON text columns (`preferred_families`, `aroma_profile`) are modelled
  by their decoded values, i.e. `json.loads` of a value written by
  `json.dumps` is the identity; the malformed-JSON fallback branches of
  the code are not reachable in this model;
* Python dict iteration order (insertion order) and the stability of
  `list.sort` / `Counter.most_common` are modelled explicitly.
-/

namespace IaCrm

/-- Python truthiness of an optional string: `None` and `""` are falsy. -/
def optStrTruthy : Option String → Bool
  | none => false
  | some s => s != ""

/-- ASCII lower-casing of a character (the strings the code lower-cases —
scenario names, event statuses, sugar levels, column names — are ASCII,
where Python `str.lower` is exactly this map). -/
def lowerChar (c : Char) : Char :=
  if 65 ≤ c.toNat ∧ c.toNat ≤ 90 then Char.ofNat (c.toNat + 32) else c

/-- ASCII `str.lower()`. -/
def pyLower (s : String) : String :=
  String.mk (s.data.map lowerChar)

/-- Python `x or d` on an optional float: `None` and `0.0` fall back to `d`. -/
def numOr (x : Option ℚ) (d : ℚ) : ℚ :=
  match x with
  | none => d
  | some v => if v = 0 then d else v

/-- Insert `x` into a list that is sorted by descending `key`, after every
entry whose key is ≥ `key x`.  This is the insertion step of a stable
descending sort. -/
def insertDesc {α : Type} (key : α → ℚ) (x : α) : List α → List α
  | [] => [x]
  | y :: ys => if key y < key x then x :: y :: ys else y :: insertDesc key x ys

/-- Stable sort by descending key: ties keep their original relative order.
This is the order produced by Python `list.sort(key=…, reverse=True)` and by
`Counter.most_common()` (CPython's sort is stable and `reverse=True` does not
reorder ties). -/
def stableSortDesc {α : Type} (key : α → ℚ) (xs : List α) : List α :=
  xs.foldl (fun acc x => insertDesc key x acc) []

/-- Ordered multiset of counts: keys appear in first-occurrence order, the
iteration order of a Python `Counter` built by repeated `+=`. -/
def bumpCounter (c : List (String × ℚ)) (k : String) (v : ℚ) : List (String × ℚ) :=
  match c with
  | [] => [(k, v)]
  | (k0, v0) :: rest =>
      if k0 = k then (k0, v0 + v) :: rest else (k0, v0) :: bumpCounter rest k v

/-- `Counter.most_common()`: entries sorted by descending count, ties in
insertion order. -/
def mostCommon (c : List (String × ℚ)) : List (String × ℚ) :=
  stableSortDesc (fun e => e.2) c

/-- Natural-number counter used for rule-code tallies. -/
def bumpCounterN (c : List (String × ℕ)) (k : String) : List (String × ℕ) :=
  match c with
  | [] => [(k, 1)]
  | (k0, v0) :: rest =>
      if k0 = k then (k0, v0 + 1) :: rest else (k0, v0) :: bumpCounterN rest k

/-- Python dict assignment `m[k] = v`: overwrites in place (the key keeps its
original position), otherwise appends. -/
def dictInsert {α : Type} (m : List (String × α)) (k : String) (v : α) :
    List (String × α) :=
  match m with
  | [] => [(k, v)]
  | (k0, v0) :: rest =>
      if k0 = k then (k0, v) :: rest else (k0, v0) :: dictInsert rest k v

/-- Python `m.get(k)`. -/
def dictGet? {α : Type} (m : List (String × α)) (k : String) : Option α :=
  (m.find? (fun e => e.1 == k)).map (fun e => e.2)

/-- `m.get(k)` where the key itself is optional (a nullable column). -/
def dictGetOpt? {α : Type} (m : List (String × α)) : Option String → Option α
  | none => none
  | some k => dictGet? m k

/-! ## Data model (backend/app/models.py) -/

/-- `models.Client` — the columns read by the engines under scrutiny.
`preferred_families` and `aroma_profile` are JSON text columns and are
modelled by their decoded values. -/
structure Client where
  id : ℕ
  tenant_id : ℕ
  client_code : String
  email : Option String
  email_opt_out : Bool
  last_purchase_date : Option ℤ
  average_order_value : Option ℚ
  rfm_score : Option ℤ
  budget_band : Option String
  preferred_families : Option (List (Option String × Option ℚ))
  aroma_confidence : Option ℚ
  cluster : Option String
  recency : Option ℚ
  frequency : Option ℚ
  monetary : Option ℚ
  deriving Repr, DecidableEq

/-- `models.Product` — the columns read by the engines under scrutiny. -/
structure Product where
  id : ℕ
  tenant_id : ℕ
  product_key : String
  name : String
  family_crm : Option String
  price_ttc : Option ℚ
  sucrosite_niveau : Option String
  global_popularity_score : Option ℚ
  is_active : Bool
  is_archived : Bool
  deriving Repr, DecidableEq

/-- `models.Sale`. -/
structure Sale where
  id : ℕ
  tenant_id : ℕ
  document_id : Option String
  product_key : Option String
  client_code : String
  quantity : Option ℚ
  amount : Option ℚ
  sale_date : Option ℤ
  deriving Repr, DecidableEq

/-- `models.ContactEvent` — the columns read by `audit_client`. -/
structure ContactEvent where
  id : ℕ
  client_id : ℕ
  status : Option String
  contact_date : Option ℤ
  deriving Repr, DecidableEq

/-! ## Audit engine (backend/app/services/audit_engine.py) -/

inductive Severity
  | error
  | warn
  deriving Repr, DecidableEq

/-- One entry of the `issues` list built by `audit_client` (the free-form
`details` payload is not inspected by any claim and is elided). -/
structure Issue where
  severity : Severity
  rule_code : String
  deriving Repr, DecidableEq

/-- The mutable state of `audit_client`: the `issues` list plus the
`errors` / `warns` counters threaded through `add_issue` via `nonlocal`. -/
structure AuditState where
  issues : List Issue
  errors : ℕ
  warns : ℕ
  deriving Repr, DecidableEq

/-- `add_issue(severity, rule, details)`. -/
def addIssue (s : AuditState) (sev : Severity) (rule : String) : AuditState :=
  { issues := s.issues ++ [⟨sev, rule⟩]
    errors := if sev = Severity.error then s.errors + 1 else s.errors
    warns := if sev = Severity.error then s.warns else s.warns + 1 }

/-- A recommendation dict as produced by
`_build_recommendations_for_client` and consumed by `audit_client`. -/
structure RecoDict where
  customer_code : String
  product_key : String
  scenario : String
  score : ℚ
  explain_short : String
  deriving Repr, DecidableEq

/-- Count of a string list, keys in first-occurrence order (`Counter(xs)`). -/
def countStr (xs : List String) : List (String × ℚ) :=
  xs.foldl (fun c k => bumpCounter c k 1) []

/-- `Counter(xs).most_common(1)[0][0]` when `xs` is non-empty. -/
def mostCommonStr (xs : List String) : Option String :=
  match mostCommon (countStr xs) with
  | [] => none
  | e :: _ => some e.1

/-- `_avg_purchase_price`: mean of the truthy prices of the purchased
products found in the map (note `if prod and prod.price_ttc:` also drops a
price of 0.0). -/
def avgPurchasePrice (purchases : List Sale) (pm : List (String × Product)) : ℚ :=
  let prices := purchases.filterMap (fun s =>
    match dictGetOpt? pm s.product_key with
    | some p =>
        match p.price_ttc with
        | some v => if v = 0 then none else some v
        | none => none
    | none => none)
  if prices = [] then 0 else prices.sum / prices.length

/-- `_dominant_sugar`: most common lower-cased `sucrosite_niveau` over the
client's purchases. -/
def dominantSugar (purchases : List Sale) (pm : List (String × Product)) :
    Option String :=
  let sugars := purchases.filterMap (fun s =>
    match dictGetOpt? pm s.product_key with
    | some p =>
        match p.sucrosite_niveau with
        | some sg => if sg = "" then none else some (pyLower sg)
        | none => none
    | none => none)
  mostCommonStr sugars

/-- A guarded `add_issue`: the shape shared by every rule of
`audit_client` (a condition that, when it holds, raises one issue). -/
def maybeIssue (cond : Bool) (sev : Severity) (rule : String)
    (s : AuditState) : AuditState :=
  if cond then addIssue s sev rule else s

/-- The body of the `for reco in recos:` loop of `audit_client`: the
`UPSELL_NOT_HIGHER` check followed by the `CROSS_SELL_NOT_NEW` check. -/
def recoRuleStep (pm : List (String × Product)) (purchasedKeys : List String)
    (avgPrice : ℚ) (s : AuditState) (r : RecoDict) : AuditState :=
  match dictGet? pm r.product_key with
  | none => s
  | some p =>
      let scen := pyLower r.scenario
      let upsellHit : Bool :=
        match p.price_ttc with
        | some pr => decide (scen = "upsell") && decide (pr ≤ avgPrice)
        | none => false
      let s1 := maybeIssue upsellHit Severity.error "UPSELL_NOT_HIGHER" s
      maybeIssue
        (decide (scen = "cross_sell") && decide (r.product_key ∈ purchasedKeys))
        Severity.warn "CROSS_SELL_NOT_NEW" s1

/-- Number of `ERROR` entries of an issue list. -/
def errCount (l : List Issue) : ℕ :=
  l.countP (fun i => i.severity == Severity.error)

/-- Number of non-`ERROR` (i.e. `WARN`) entries of an issue list. -/
def warnCount (l : List Issue) : ℕ :=
  l.countP (fun i => !(i.severity == Severity.error))

/-- The `errors` / `warns` counters of `audit_client` agree with the
issue list they were accumulated alongside. -/
def auditInv (s : AuditState) : Prop :=
  s.errors = errCount s.issues ∧ s.warns = warnCount s.issues

/-- Result tuple of `audit_client`: `(issues, audit_score, eligible, reason)`. -/
structure AuditResult where
  issues : List Issue
  audit_score : ℚ
  eligible : Bool
  reason : Option String
  deriving Repr, DecidableEq

/-- The `OPTOUT_OR_BOUNCE` event condition of `audit_client` (the
`for … break` loop raises at most one issue, i.e. fires iff some event
matches). -/
def bounceCond (ev : ContactEvent) : Bool :=
  match ev.status with
  | some st => st != "" && (pyLower st == "bounce" || pyLower st == "unsubscribe")
  | none => false

/-- The `SILENCE_WINDOW` event condition. -/
def silenceCond (silenceWindowDays now : ℤ) (ev : ContactEvent) : Bool :=
  match ev.contact_date with
  | some d => decide (now - d < silenceWindowDays)
  | none => false

/-- The `SUGAR_MISMATCH` reco condition, given the dominant sugar `d`. -/
def sugarMismatchCond (pm : List (String × Product)) (d : String)
    (r : RecoDict) : Bool :=
  match dictGet? pm r.product_key with
  | some p =>
      match p.sucrosite_niveau with
      | some sg => sg != "" && pyLower sg != d
      | none => false
  | none => false

/-- The `LOW_DIVERSITY` condition of `audit_client`. -/
def lowDiversityCond (recos : List RecoDict) (pm : List (String × Product)) :
    Bool :=
  let fams := (recos.filterMap (fun r => dictGet? pm r.product_key)).filterMap
    (fun p =>
      match p.family_crm with
      | some f => if f = "" then none else some f
      | none => none)
  let famCounter := countStr fams
  decide (recos ≠ []) && decide (famCounter ≠ []) &&
    (let topCount := ((mostCommon famCounter).headD ("", 0)).2
     decide (topCount / (max 1 (recos.length : ℚ)) > 7/10) &&
       decide (recos.length ≥ 3))

/-- The issue list and counters `audit_client` accumulates, rule by rule,
in source order. -/
def auditState (client : Client) (recos : List RecoDict)
    (pm : List (String × Product)) (contactEvents : List ContactEvent)
    (purchases : List Sale) (silenceWindowDays : ℤ) (now : ℤ) : AuditState :=
  let s0 : AuditState := ⟨[], 0, 0⟩
  -- if not client.email: MISSING_EMAIL
  let s1 := maybeIssue (!optStrTruthy client.email) Severity.error "MISSING_EMAIL" s0
  -- if client.email_opt_out: OPTOUT_OR_BOUNCE
  let s2 := maybeIssue client.email_opt_out Severity.error "OPTOUT_OR_BOUNCE" s1
  -- first contact event with status in {bounce, unsubscribe} (loop + break)
  let s3 := maybeIssue (contactEvents.any bounceCond) Severity.error
    "OPTOUT_OR_BOUNCE" s2
  -- first contact event within the silence window (loop + break)
  let s4 := maybeIssue (contactEvents.any (silenceCond silenceWindowDays now))
    Severity.error "SILENCE_WINDOW" s3
  -- duplicate product_key across the recommendations
  let prodCounts := countStr (recos.filterMap (fun r =>
    if r.product_key = "" then none else some r.product_key))
  let s5 := maybeIssue (prodCounts.any (fun e => e.2 > 1)) Severity.error
    "RECENT_DUPLICATE" s4
  let purchasedKeys := purchases.filterMap (fun s => s.product_key)
  let avgPrice := avgPurchasePrice purchases pm
  let s6 := recos.foldl (recoRuleStep pm purchasedKeys avgPrice) s5
  -- diversity
  let s7 := maybeIssue (lowDiversityCond recos pm) Severity.warn
    "LOW_DIVERSITY" s6
  -- sucrosity mismatch (loop + break on the first mismatching reco)
  let sugarHit : Bool :=
    match dominantSugar purchases pm with
    | none => false
    | some d => recos.any (sugarMismatchCond pm d)
  maybeIssue sugarHit Severity.warn "SUGAR_MISMATCH" s7

/-- `audit_client` (audit_engine.py): rule evaluation, audit score,
eligibility and blocking reason.  `now` is the `dt.datetime.utcnow()`
taken at the top of the function, in days. -/
def auditClient (client : Client) (recos : List RecoDict)
    (pm : List (String × Product)) (contactEvents : List ContactEvent)
    (purchases : List Sale) (silenceWindowDays : ℤ) (now : ℤ) : AuditResult :=
  let s8 := auditState client recos pm contactEvents purchases
    silenceWindowDays now
  let auditScore : ℚ := max 0 (100 - 40 * (s8.errors : ℚ) - 10 * (s8.warns : ℚ))
  let eligible : Bool := decide (s8.errors = 0) && decide ((80 : ℚ) ≤ auditScore)
  let reason : Option String :=
    if eligible then none
    else some (match s8.issues with
               | [] => "AUDIT_SCORE_BELOW_THRESHOLD"
               | i :: _ => i.rule_code)
  ⟨s8.issues, auditScore, eligible, reason⟩

/-! ## Scenario service (backend/app/services/scenario_service.py) -/

/-- One row of the `ScenarioService` weight matrix. -/
structure FeatureWeights where
  recency : ℚ
  monetary : ℚ
  coverage : ℚ
  families : ℚ
  aroma_conf : ℚ
  deriving Repr, DecidableEq

/-- The default weight matrix of `ScenarioService.__init__`, in the
iteration order of `SCENARIOS`. -/
def defaultScenarioWeights : List (String × FeatureWeights) :=
  [("WINBACK", ⟨3, 2, 0, 0, 1⟩),
   ("REBUY", ⟨-1, 1, 1, 0, 1⟩),
   ("CROSS_SELL", ⟨-1, 1, 3, 2, 1⟩),
   ("UPSELL", ⟨-1, 2, 1, 0, 2⟩),
   ("NURTURE", ⟨1, 1, 1, 0, 1⟩)]

/-- Python `max(xs, key=...)`: the first element attaining the maximum. -/
def argmaxFirst (xs : List (String × ℚ)) : Option String :=
  match xs with
  | [] => none
  | e :: rest =>
      some (rest.foldl (fun best x => if x.2 > best.2 then x else best) e).1

/-- The feature vector extracted from the client in
`ScenarioService.decide` (recency, monetary, coverage, 1/(1+num_families),
aroma confidence). -/
def scenarioFeatures (c : Client) : ℚ × ℚ × ℚ × ℚ × ℚ :=
  let recency := numOr c.recency 0
  let monetary := numOr c.monetary 0
  let coverage :=
    match c.preferred_families with
    | none => 0
    | some prefs => ((prefs.map (fun p => p.2.getD 0)).take 2).sum
  let numFamilies : ℤ :=
    match c.cluster with
    | none => 0
    | some s => (s.toInt?).getD 0
  let famFeature : ℚ := 1 / (1 + (numFamilies : ℚ))
  let aromaConf := c.aroma_confidence.getD 0
  (recency, monetary, coverage, famFeature, aromaConf)

/-- The `scenario_scores` dict of `ScenarioService.decide`, in insertion
(= `SCENARIOS`) order. -/
def scenarioScores (c : Client) : List (String × ℚ) :=
  let (recency, monetary, coverage, famFeature, aromaConf) := scenarioFeatures c
  defaultScenarioWeights.map (fun e =>
    (e.1, e.2.recency * recency + e.2.monetary * monetary
      + e.2.coverage * coverage + e.2.families * famFeature
      + e.2.aroma_conf * aromaConf))

/-- `_select_scenario` via `ScenarioService.decide` with the default weight
matrix: the argmax scenario, lower-cased. -/
def weightedScenario (c : Client) : String :=
  pyLower ((argmaxFirst (scenarioScores c)).getD "")

/-- The rule-based fallback path of `_select_scenario`
(recommendation_engine.py, the `except` branch). -/
def fallbackScenario (c : Client) (now : ℤ) : String :=
  if c.rfm_score = none ∨ c.rfm_score = some 0 then "nurture"
  else
    let viaDays : Option String :=
      match c.last_purchase_date with
      | some d =>
          if now - d > 180 then some "winback"
          else if now - d > 30 then some "rebuy"
          else none
      | none => none
    match viaDays with
    | some s => s
    | none => if c.budget_band = some "Low" then "upsell" else "cross_sell"

/-! ## Recommendation engine (backend/app/services/recommendation_engine.py) -/

/-- `SCORING_WEIGHTS`: per-scenario weights of the composite score
`(popularity, price, family, rfm)`. -/
def SCORING_WEIGHTS : List (String × (ℚ × ℚ × ℚ × ℚ)) :=
  [("winback", (3/10, 3/10, 2/10, 2/10)),
   ("rebuy", (3/10, 2/10, 4/10, 1/10)),
   ("cross_sell", (3/10, 3/10, 2/10, 2/10)),
   ("upsell", (2/10, 4/10, 3/10, 1/10)),
   ("nurture", (3/10, 3/10, 2/10, 2/10))]

/-- `_compute_score`: the composite score of a product for a client under a
scenario.  This function exists in the source but is never invoked by
`generate_recommendations_run`. -/
def computeScore (prod : Product) (client : Client) (maxPrice : ℚ)
    (maxRfmScore : ℚ) (scenario : String) : ℚ :=
  let popularity := numOr prod.global_popularity_score 0
  let aov := numOr client.average_order_value 0
  let price := numOr prod.price_ttc 0
  let priceScore : ℚ :=
    if price ≠ 0 ∧ 0 < maxPrice then
      1 - min (|price - aov| / maxPrice) 1
    else 1/2
  let famScore : ℚ :=
    match prod.family_crm, client.preferred_families with
    | some f, some prefs =>
        if f ≠ "" ∧ (prefs.map (fun p => p.1)).contains (some f) then 1 else 0
    | _, _ => 0
  let rfmNorm : ℚ :=
    if 0 < maxRfmScore then
      (match client.rfm_score with
       | some v => if v = 0 then (0 : ℚ) else (v : ℚ)
       | none => 0) / maxRfmScore
    else 0
  let w := (dictGet? SCORING_WEIGHTS (pyLower scenario)).getD
    ((dictGet? SCORING_WEIGHTS "nurture").getD (0, 0, 0, 0))
  w.1 * popularity + w.2.1 * priceScore + w.2.2.1 * famScore + w.2.2.2 * rfmNorm

/-- `_product_popularity`: quantity-weighted sales counter per product key,
keys in first-occurrence order. -/
def productPopularity (sales : List Sale) : List (String × ℚ) :=
  sales.foldl (fun c s =>
    match s.product_key with
    | some k => if k = "" then c else bumpCounter c k (numOr s.quantity 1)
    | none => c) []

/-- One iteration of the `for sale in purchases:` loop of
`_rebuy_candidates` (`st` carries the `seen` set and the `(product,
quantity)` rows). -/
def rebuyStep (pm : List (String × Product)) (now : ℤ)
    (st : List String × List (Product × ℚ)) (s : Sale) :
    List String × List (Product × ℚ) :=
  match dictGetOpt? pm s.product_key with
  | none => st
  | some p =>
      if p.product_key ∈ st.1 then st
      else
        let keep : Bool :=
          match s.sale_date with
          | some d => !(decide (now - d < 30))
          | none => true
        if keep then
          (st.1 ++ [p.product_key], st.2 ++ [(p, numOr s.quantity 1)])
        else st

/-- `_rebuy_candidates`: previously purchased products, excluding those
bought in the last 30 days, sorted by quantity descending (stable). -/
def rebuyCandidates (purchases : List Sale) (pm : List (String × Product))
    (now : ℤ) : List Product :=
  ((stableSortDesc (fun t => t.2)
    (purchases.foldl (rebuyStep pm now) ([], [])).2).map (fun t => t.1))

/-- `_cross_sell_candidates`: most popular products not yet purchased. -/
def crossSellCandidates (popularity : List (String × ℚ))
    (purchased : List String) (pm : List (String × Product)) : List Product :=
  let orderedKeys := ((mostCommon popularity).map (fun e => e.1)).filter
    (fun k => k ∉ purchased)
  orderedKeys.filterMap (fun k => dictGet? pm k)

/-- The values of a product map, in dict iteration order. -/
def pmValues (pm : List (String × Product)) : List Product :=
  pm.map (fun e => e.2)

/-- `_upsell_candidates`: unpurchased products in a purchased family with a
price strictly above the client's average purchase price, sorted by price
descending (stable). -/
def upsellCandidates (purchases : List Sale) (pm : List (String × Product))
    (purchased : List String) (averagePrice : ℚ) : List Product :=
  let cands := (pmValues pm).filterMap (fun p =>
    if p.product_key ∈ purchased then none
    else
      match p.family_crm with
      | none => none
      | some f =>
          if f = "" then none
          else
            match p.price_ttc with
            | none => none
            | some pr =>
                let famMatch := purchases.any (fun s =>
                  match dictGetOpt? pm s.product_key with
                  | some q => q.family_crm == some f
                  | none => false)
                if famMatch ∧ averagePrice < pr then some (p, pr) else none)
  (stableSortDesc (fun t => t.2) cands).map (fun t => t.1)

/-- `client.cluster or "global"`, the `segment` value fed to `_explain`. -/
def clientSegment (c : Client) : String :=
  match c.cluster with
  | some s => if s = "" then "global" else s
  | none => "global"

/-- `_explain` (the float formatting of the upsell branch is rendered with
`toString`; no claim inspects this text). -/
def explainShort (scenario : String) (p : Product) (segment : String) : String :=
  if scenario = "rebuy" then "Deja achete : " ++ p.name
  else if scenario = "cross_sell" then "Populaire dans le segment " ++ segment
  else if scenario = "upsell" then
    "Plus premium (prix " ++ toString (numOr p.price_ttc 0) ++ ")"
  else "Suggestion " ++ scenario

/-- The `add_candidates` closure of `_build_recommendations_for_client`:
appends candidates not yet added, each with score
`prod.global_popularity_score or 0.0`, and stops once the reco list has
reached `top_n` — the length test runs only *after* an append, so a call
entered with a full list still appends one candidate. -/
def addCandidates (client : Client) (topN : ℕ) (scenario : String) :
    List Product → List RecoDict × List String → List RecoDict × List String
  | [], st => st
  | p :: rest, (recos, added) =>
      if p.product_key ∈ added then
        addCandidates client topN scenario rest (recos, added)
      else
        let reco : RecoDict :=
          { customer_code := client.client_code
            product_key := p.product_key
            scenario := scenario
            score := numOr p.global_popularity_score 0
            explain_short := explainShort scenario p (clientSegment client) }
        let recos2 := recos ++ [reco]
        let added2 := added ++ [p.product_key]
        if topN ≤ recos2.length then (recos2, added2)
        else addCandidates client topN scenario rest (recos2, added2)

/-- `_build_recommendations_for_client` (the second, effective definition in
the module — the file defines it twice and Python keeps the later one). -/
def buildRecommendationsForClient (client : Client) (purchases : List Sale)
    (pm : List (String × Product)) (popularity : List (String × ℚ))
    (topN : ℕ) (now : ℤ) : List RecoDict :=
  let purchasedKeys := purchases.filterMap (fun s => s.product_key)
  let avgPrice : ℚ :=
    ((purchases.filterMap (fun s => dictGetOpt? pm s.product_key)).map
      (fun p => numOr p.price_ttc 0)).sum / ((max 1 purchases.length : ℕ) : ℚ)
  let st0 : List RecoDict × List String := ([], [])
  let st1 := addCandidates client topN "rebuy" (rebuyCandidates purchases pm now) st0
  let st2 := addCandidates client topN "upsell"
    (upsellCandidates purchases pm purchasedKeys avgPrice) st1
  let st3 := addCandidates client topN "cross_sell"
    (crossSellCandidates popularity purchasedKeys pm) st2
  if st3.1 = [] then
    (addCandidates client topN "nurture"
      ((pmValues pm).filter (fun p => p.product_key ∉ st3.2)) st3).1
  else st3.1

/-! ### Run persistence -/

/-- `models.RecoRun` (run-level metadata row). -/
structure RecoRunRow where
  run_id : String
  tenant_id : ℕ
  status : String
  dataset_version : Option String
  deriving Repr, DecidableEq

/-- `RecoOutput` row (`reasons_json = {"source": scenario}` is modelled by
its decoded `source` field). -/
structure RecoOutputRow where
  run_id : String
  tenant_id : ℕ
  customer_code : String
  scenario : String
  rank : ℕ
  product_key : String
  score : ℚ
  explain_short : String
  reasons_source : String
  deriving Repr, DecidableEq

/-- `models.RecoItem` row (front-compat mirror). -/
structure RecoItemRow where
  run_pk : ℕ
  tenant_id : ℕ
  client_id : ℕ
  product_id : ℕ
  scenario : String
  rank : ℕ
  score : ℚ
  deriving Repr, DecidableEq

/-- `models.Recommendation` row (flat aggregate table). -/
structure RecommendationRow where
  tenant_id : ℕ
  client_code : String
  product_key : String
  score : ℚ
  scenario : String
  deriving Repr, DecidableEq

/-- `AuditOutput` row. -/
structure AuditOutputRow where
  run_id : String
  tenant_id : ℕ
  customer_code : String
  severity : Severity
  rule_code : String
  deriving Repr, DecidableEq

/-- `NextActionOutput` row. -/
structure NextActionRow where
  run_id : String
  tenant_id : ℕ
  customer_code : String
  eligible : Bool
  reason : Option String
  scenario : Option String
  audit_score : ℚ
  deriving Repr, DecidableEq

/-- The decoded `summary_json` persisted in `RunSummary`. -/
structure SummaryJson where
  gating_rate : ℚ
  total_clients : ℕ
  total_recommendations : ℕ
  scenario_counts : List (String × ℕ)
  top_errors : List (String × ℕ)
  n_errors : ℕ
  n_warns : ℕ
  audit_score : ℚ
  gate_export : Bool
  deriving Repr, DecidableEq

/-- `RunSummary` row. -/
structure RunSummaryRow where
  run_id : String
  tenant_id : ℕ
  summary : SummaryJson
  deriving Repr, DecidableEq

/-- The relational store (every table the run engine touches). -/
structure Db where
  clients : List Client
  products : List Product
  sales : List Sale
  contact_events : List ContactEvent
  recommendations : List RecommendationRow
  reco_outputs : List RecoOutputRow
  audit_outputs : List AuditOutputRow
  next_actions : List NextActionRow
  run_summaries : List RunSummaryRow
  reco_items : List RecoItemRow
  reco_runs : List RecoRunRow
  deriving Repr, DecidableEq

/-- Everything one iteration of the per-client loop of
`generate_recommendations_run` produces. -/
structure ClientRunOutput where
  recos : List RecoDict
  recoRows : List RecoOutputRow
  recoItems : List RecoItemRow
  recommendations : List RecommendationRow
  auditRows : List AuditOutputRow
  nextAction : NextActionRow
  issues : List Issue
  deriving Repr, DecidableEq

/-- `{p.product_key: p for p in products if p.product_key}` (line 352). -/
def mkProductMap (products : List Product) : List (String × Product) :=
  products.foldl
    (fun m p => if p.product_key = "" then m else dictInsert m p.product_key p) []

/-- One iteration of the `for client in clients:` loop of
`generate_recommendations_run`. -/
def processClient (tenantId : ℕ) (runId : String) (runPk : ℕ)
    (pm : List (String × Product)) (popularity : List (String × ℚ))
    (tenantSales : List Sale) (tenantEvents : List ContactEvent)
    (topN : ℕ) (silence : ℤ) (now : ℤ) (c : Client) : ClientRunOutput :=
  let purchases := tenantSales.filter (fun s => s.client_code == c.client_code)
  let contacts := tenantEvents.filter (fun ev => ev.client_id == c.id)
  let recos := buildRecommendationsForClient c purchases pm popularity topN now
  let recoRows := recos.enum.map (fun e =>
    { run_id := runId, tenant_id := tenantId, customer_code := c.client_code
      scenario := e.2.scenario, rank := e.1 + 1, product_key := e.2.product_key
      score := e.2.score, explain_short := e.2.explain_short
      reasons_source := e.2.scenario : RecoOutputRow })
  let recoItems := recos.enum.filterMap (fun e =>
    (dictGet? pm e.2.product_key).map (fun p =>
      { run_pk := runPk, tenant_id := tenantId, client_id := c.id
        product_id := p.id, scenario := e.2.scenario, rank := e.1 + 1
        score := e.2.score : RecoItemRow }))
  let recs := recos.map (fun r =>
    { tenant_id := tenantId, client_code := c.client_code
      product_key := r.product_key
      -- `reco.get("score") or 0.0`: the stored score is never None and
      -- `0.0 or 0.0` is `0.0`, so this is the identity on the score
      score := r.score
      scenario := r.scenario : RecommendationRow })
  let audit := auditClient c recos pm contacts purchases silence now
  let auditRows := audit.issues.map (fun i =>
    { run_id := runId, tenant_id := tenantId, customer_code := c.client_code
      severity := i.severity, rule_code := i.rule_code : AuditOutputRow })
  let nextAction : NextActionRow :=
    { run_id := runId, tenant_id := tenantId, customer_code := c.client_code
      eligible := audit.eligible, reason := audit.reason
      scenario := (recos.head?).map (fun r => r.scenario)
      audit_score := audit.audit_score }
  ⟨recos, recoRows, recoItems, recs, auditRows, nextAction, audit.issues⟩

/-- Result of `generate_recommendations_run`: the updated store plus the
returned `{run_id, summary, status}` payload. -/
structure RunResult where
  db : Db
  run_id : String
  summary : SummaryJson
  status : String
  deriving Repr, DecidableEq

/-- `generate_recommendations_run`.  `runId` / `runPk` stand for the fresh
identifiers the store assigns to the new `RecoRun` row; `now` is
`dt.datetime.utcnow()` in days. -/
def generateRecommendationsRun (db : Db) (tenantId : ℕ) (topN : ℕ)
    (silence : ℤ) (now : ℤ) (runId : String) (runPk : ℕ) : RunResult :=
  let products := db.products.filter (fun p => p.tenant_id == tenantId)
  let pm := mkProductMap products
  let clients := db.clients.filter (fun c => c.tenant_id == tenantId)
  let sales := db.sales.filter (fun s => s.tenant_id == tenantId)
  let events := db.contact_events.filter (fun ev =>
    db.clients.any (fun cl => cl.id == ev.client_id && cl.tenant_id == tenantId))
  let popularity := productPopularity sales
  -- lines 369-376: delete all prior outputs of the tenant
  let keptRecommendations := db.recommendations.filter (fun r => r.tenant_id != tenantId)
  let keptRecoOutputs := db.reco_outputs.filter (fun r => r.tenant_id != tenantId)
  let keptAuditOutputs := db.audit_outputs.filter (fun r => r.tenant_id != tenantId)
  let keptNextActions := db.next_actions.filter (fun r => r.tenant_id != tenantId)
  let keptRunSummaries := db.run_summaries.filter (fun r => r.tenant_id != tenantId)
  let keptRecoItems := db.reco_items.filter (fun r => r.tenant_id != tenantId)
  let outs := clients.map
    (processClient tenantId runId runPk pm popularity sales events topN silence now)
  let allIssues := outs.flatMap (fun o => o.issues)
  let totalErrors := allIssues.countP (fun i => i.severity == Severity.error)
  let totalWarns := allIssues.countP (fun i => i.severity != Severity.error)
  let issuesCounter := allIssues.foldl (fun c i => bumpCounterN c i.rule_code) []
  let scenarioCounts := (outs.flatMap (fun o => o.recos)).foldl
    (fun c r => bumpCounterN c r.scenario) []
  let eligibleCount := outs.countP (fun o => o.nextAction.eligible)
  let recOutputRows := outs.flatMap (fun o => o.recoRows)
  let runAuditScore : ℚ := max 0 (100 - 40 * (totalErrors : ℚ) - 10 * (totalWarns : ℚ))
  -- line 479: gate_export = total_errors == 0 and run_audit_score >= 80.
  -- The summary dict literal then lists the "gate_export" key twice
  -- (lines 490-491); in Python the second occurrence wins, so the value
  -- below is `eligible == len(clients)` and the formula above is discarded.
  let summary : SummaryJson :=
    { gating_rate := (eligibleCount : ℚ) / ((max 1 clients.length : ℕ) : ℚ)
      total_clients := clients.length
      total_recommendations := recOutputRows.length
      scenario_counts := scenarioCounts
      top_errors := (stableSortDesc (fun e => (e.2 : ℚ)) issuesCounter).take 3
      n_errors := totalErrors
      n_warns := totalWarns
      audit_score := runAuditScore
      gate_export := decide (eligibleCount = clients.length) }
  let finalRun : RecoRunRow :=
    { run_id := runId, tenant_id := tenantId, status := "completed"
      dataset_version := some (toString sales.length) }
  { db :=
      { db with
        recommendations := keptRecommendations ++ outs.flatMap (fun o => o.recommendations)
        reco_outputs := keptRecoOutputs ++ recOutputRows
        audit_outputs := keptAuditOutputs ++ outs.flatMap (fun o => o.auditRows)
        next_actions := keptNextActions ++ outs.map (fun o => o.nextAction)
        run_summaries := keptRunSummaries ++
          [{ run_id := runId, tenant_id := tenantId, summary := summary }]
        reco_items := keptRecoItems ++ outs.flatMap (fun o => o.recoItems)
        reco_runs := db.reco_runs ++ [finalRun] }
    run_id := runId
    summary := summary
    status := "completed" }

/-! ## RFM service (backend/app/services/rfm_service.py) -/

/-- The per-client accumulator of `_compute_basic_metrics`. -/
structure BasicMetrics where
  last_purchase_date : Option ℤ
  total_spent : ℚ
  documents : List String
  deriving Repr, DecidableEq

/-- The per-sale update inside the grouping loop of
`_compute_basic_metrics`. -/
def updMetrics (m : BasicMetrics) (s : Sale) : BasicMetrics :=
  let last :=
    match s.sale_date, m.last_purchase_date with
    | some d, none => some d
    | some d, some l => if d > l then some d else some l
    | none, l => l
  let amt : ℚ :=
    match s.amount with
    | some a => a
    | none => match s.quantity with | some q => q | none => 0
  let docs :=
    match s.document_id with
    | some doc =>
        if doc = "" ∨ doc ∈ m.documents then m.documents else m.documents ++ [doc]
    | none => m.documents
  { last_purchase_date := last, total_spent := m.total_spent + amt
    documents := docs }

/-- Grouped update of an association list, keys in first-occurrence order
(the iteration order of the `metrics` dict). -/
def assocUpdate (ms : List (String × BasicMetrics)) (k : String)
    (f : BasicMetrics → BasicMetrics) (init : BasicMetrics) :
    List (String × BasicMetrics) :=
  match ms with
  | [] => [(k, f init)]
  | (k0, v0) :: rest =>
      if k0 = k then (k0, f v0) :: rest
      else (k0, v0) :: assocUpdate rest k f init

/-- `_compute_basic_metrics` (grouping part): per `client_code`, the last
purchase date, total spent (amount, falling back to quantity, else 0) and
the set of truthy `document_id`s. -/
def computeBasicMetrics (sales : List Sale) : List (String × BasicMetrics) :=
  sales.foldl
    (fun ms s =>
      assocUpdate ms s.client_code (fun m => updMetrics m s)
        ⟨s.sale_date, 0, []⟩)
    []

/-- Ascending stable sort (via the descending sort on the negated key). -/
def sortAsc (xs : List ℚ) : List ℚ :=
  (stableSortDesc (fun x => -x) xs)

/-- `np.quantile` with the default linear interpolation. -/
def npQuantile (arr : List ℚ) (p : ℚ) : ℚ :=
  let sorted := sortAsc arr
  let n := sorted.length
  if n = 0 then 0
  else
    let h : ℚ := ((n - 1 : ℕ) : ℚ) * p
    let i : ℕ := (⌊h⌋).toNat
    let lo := sorted.getD i 0
    let hi := sorted.getD (min (i + 1) (n - 1)) 0
    lo + (h - (⌊h⌋ : ℚ)) * (hi - lo)

/-- `_quantile_scores`: inverse quintile scores (small value → 5) used for
recency; `None` entries score 0; an all-`None` input yields the empty
result (`return {}` in the source, read back with a length guard). -/
def quantileScoresR (values : List (Option ℚ)) : List ℕ :=
  let arr := values.filterMap id
  if arr = [] then []
  else
    let q0 := npQuantile arr (2/10)
    let q1 := npQuantile arr (4/10)
    let q2 := npQuantile arr (6/10)
    let q3 := npQuantile arr (8/10)
    values.map (fun v =>
      match v with
      | none => 0
      | some v =>
          if v ≤ q0 then 5 else if v ≤ q1 then 4
          else if v ≤ q2 then 3 else if v ≤ q3 then 2 else 1)

/-- The inner `score_positive` of `compute_rfm_for_tenant`: positive
quintile scores (small value → 1); an all-`None` input yields all zeros. -/
def scorePositive (values : List (Option ℚ)) : List ℕ :=
  let arr := values.filterMap id
  if arr = [] then values.map (fun _ => 0)
  else
    let q0 := npQuantile arr (2/10)
    let q1 := npQuantile arr (4/10)
    let q2 := npQuantile arr (6/10)
    let q3 := npQuantile arr (8/10)
    values.map (fun v =>
      match v with
      | none => 0
      | some v =>
          if v ≤ q0 then 1 else if v ≤ q1 then 2
          else if v ≤ q2 then 3 else if v ≤ q3 then 4 else 5)

/-- `_map_segment`. -/
def mapSegment (r f m : ℕ) : String :=
  if r ≥ 4 ∧ f ≥ 4 ∧ m ≥ 4 then "Champions"
  else if f ≥ 4 ∧ r ≥ 3 then "Loyal Customers"
  else if m ≥ 4 ∧ f ≥ 3 then "Big Spenders"
  else if r ≥ 4 ∧ f ≤ 2 then "Recent Customers"
  else if r ≥ 3 ∧ f ≥ 2 ∧ m ≥ 2 then "Promising"
  else if r ≤ 2 ∧ f ≤ 2 then "At Risk"
  else "Others"

/-- The field assignment `compute_rfm_for_tenant` performs on one client. -/
structure RfmUpdate where
  client_code : String
  last_purchase_date : Option ℤ
  total_spent : ℚ
  total_orders : ℕ
  average_order_value : ℚ
  recency : ℚ
  frequency : ℚ
  monetary : ℚ
  r_score : ℕ
  f_score : ℕ
  m_score : ℕ
  rfm_score : ℤ
  rfm_segment : String
  deriving Repr, DecidableEq

/-- `compute_rfm_for_tenant`, as the list of client updates it writes, in
`metrics` iteration order (a client row is updated when it exists for the
tenant; the update values depend only on the tenant's sales). -/
def computeRfmForTenant (sales : List Sale) : List RfmUpdate :=
  let metrics := computeBasicMetrics sales
  if metrics = [] then []
  else
    let allDates := metrics.filterMap (fun e => e.2.last_purchase_date)
    match allDates.max? with
    | none => []
    | some referenceDate =>
        let recencyList : List (Option ℚ) := metrics.map (fun e =>
          match e.2.last_purchase_date with
          | some d => some ((referenceDate - d : ℤ) : ℚ)
          | none => none)
        let frequencyList : List (Option ℚ) :=
          metrics.map (fun e => some ((e.2.documents.length : ℕ) : ℚ))
        let monetaryList : List (Option ℚ) :=
          metrics.map (fun e => some e.2.total_spent)
        let rScores := quantileScoresR recencyList
        let fScores := scorePositive frequencyList
        let mScores := scorePositive monetaryList
        (List.range metrics.length).map (fun idx =>
          let e := metrics.getD idx ("", ⟨none, 0, []⟩)
          let totalOrders := e.2.documents.length
          let r := rScores.getD idx 0
          let f := fScores.getD idx 0
          let m := mScores.getD idx 0
          { client_code := e.1
            last_purchase_date := e.2.last_purchase_date
            total_spent := e.2.total_spent
            total_orders := totalOrders
            average_order_value :=
              if totalOrders > 0 then e.2.total_spent / totalOrders else 0
            recency := ((recencyList.getD idx none).getD 0)
            frequency := ((frequencyList.getD idx none).getD 0)
            monetary := ((monetaryList.getD idx none).getD 0)
            r_score := r
            f_score := f
            m_score := m
            -- line 243: `client.rfm_score = r_score + f_score + m_score`
            rfm_score := (r : ℤ) + (f : ℤ) + (m : ℤ)
            rfm_segment := mapSegment r f m })

/-! ## Cluster service (backend/app/services/cluster_service.py) -/

/-- `_normalize_features`: min-max scaling per column (a zero range is
replaced by 1 to avoid division by zero). -/
def normalizeFeatures (rows : List (List ℚ)) (dims : ℕ) : List (List ℚ) :=
  let col := fun (j : ℕ) => rows.map (fun r => r.getD j 0)
  let mins := (List.range dims).map (fun j => ((col j).min?).getD 0)
  let maxs := (List.range dims).map (fun j => ((col j).max?).getD 0)
  let ranges := (List.range dims).map (fun j =>
    let d := maxs.getD j 0 - mins.getD j 0
    if d = 0 then 1 else d)
  rows.map (fun r => (List.range dims).map (fun j =>
    (r.getD j 0 - mins.getD j 0) / ranges.getD j 1))

/-- Squared euclidean distance.  `_assign_clusters` uses
`np.linalg.norm`; `argmin` over the norm equals `argmin` over its square,
so the (irrational) square root is dropped. -/
def sqDist (a b : List ℚ) : ℚ :=
  ((a.zip b).map (fun p => (p.1 - p.2) ^ 2)).sum

/-- `np.argmin` over the distances to each center: first index attaining
the minimum. -/
def argminIdx (xs : List ℚ) : ℕ :=
  match xs with
  | [] => 0
  | x :: rest =>
      (rest.foldl
        (fun (st : ℕ × ℚ × ℕ) v =>
          let (best, bestv, i) := st
          if v < bestv then (i, v, i + 1) else (best, bestv, i + 1))
        (0, x, 1)).1

/-- `_assign_clusters`. -/
def assignClusters (data : List (List ℚ)) (centers : List (List ℚ)) : List ℕ :=
  data.map (fun p => argminIdx (centers.map (fun c => sqDist p c)))

/-- Column-wise mean of a set of points. -/
def meanPoint (pts : List (List ℚ)) (dims : ℕ) : List ℚ :=
  (List.range dims).map (fun j =>
    ((pts.map (fun p => p.getD j 0)).sum) / (pts.length : ℚ))

/-- `_recompute_centers`; `rand` is the oracle standing for the module's
`random` draws, consumed from index `rc`. -/
def recomputeCenters (data : List (List ℚ)) (labels : List ℕ) (k : ℕ)
    (dims : ℕ) (rand : ℕ → ℕ) (rc : ℕ) : List (List ℚ) :=
  (List.range k).map (fun idx =>
    let pts := ((data.zip labels).filter (fun e => e.2 == idx)).map (fun e => e.1)
    if pts.length > 0 then meanPoint pts dims
    else data.getD (rand (rc + idx) % max 1 data.length) [])

/-- The fixed-point iteration of `kmeans` (`max_iter` as fuel; stops early
when the assignment is stable). -/
def kmeansLoop (data : List (List ℚ)) (k : ℕ) (dims : ℕ) (rand : ℕ → ℕ) :
    ℕ → List ℕ → List (List ℚ) → ℕ → List ℕ × List (List ℚ)
  | 0, labels, centers, _ => (labels, centers)
  | fuel + 1, labels, centers, rc =>
      let newLabels := assignClusters data centers
      if newLabels = labels then (labels, centers)
      else
        kmeansLoop data k dims rand fuel newLabels
          (recomputeCenters data newLabels k dims rand rc) (rc + k)

/-- `kmeans`: raises `ValueError` when there are fewer points than
clusters; otherwise runs at most 20 iterations from random initial
centers (`random.sample`, modelled by the `rand` oracle). -/
def kmeansE (data : List (List ℚ)) (k : ℕ) (dims : ℕ) (rand : ℕ → ℕ) :
    Except String (List ℕ × List (List ℚ)) :=
  if data.length < k then
    Except.error "Le nombre de points est inferieur au nombre de clusters"
  else
    let centers := (List.range k).map (fun i =>
      data.getD (rand i % max 1 data.length) [])
    let labels := data.map (fun _ => (0 : ℕ))
    Except.ok (kmeansLoop data k dims rand 20 labels centers (k + 1))

/-- `compute_clusters_for_tenant`: the `{"cK": count}` map, or the
propagated `ValueError`, for the given tenant clients. -/
def computeClustersForTenant (clients : List Client) (nClusters : ℕ)
    (rand : ℕ → ℕ) : Except String (List (String × ℕ)) :=
  let complete := clients.filter (fun c =>
    c.recency.isSome && c.frequency.isSome && c.monetary.isSome)
  if complete = [] then Except.ok []
  else
    let data := complete.map (fun c =>
      [c.recency.getD 0, c.frequency.getD 0, c.monetary.getD 0])
    let dataNorm := normalizeFeatures data 3
    match kmeansE dataNorm nClusters 3 rand with
    | Except.error e => Except.error e
    | Except.ok (labels, _) =>
        Except.ok (labels.foldl
          (fun counts l => bumpCounterN counts ("c" ++ toString l)) [])

/-! ## SHA-256 (hashlib.sha256, FIPS 180-4), over byte lists -/

/-- Truncation to a 32-bit word. -/
def w32 (n : ℕ) : ℕ := n % 4294967296

/-- 32-bit right rotation. -/
def rotr32 (x n : ℕ) : ℕ := w32 ((x >>> n) ||| (x <<< (32 - n)))

/-- 32-bit complement. -/
def not32 (x : ℕ) : ℕ := 4294967295 ^^^ x

def shaCh (e f g : ℕ) : ℕ := (e &&& f) ^^^ (not32 e &&& g)

def shaMaj (a b c : ℕ) : ℕ := (a &&& b) ^^^ (a &&& c) ^^^ (b &&& c)

def bigSigma0 (x : ℕ) : ℕ := rotr32 x 2 ^^^ rotr32 x 13 ^^^ rotr32 x 22

def bigSigma1 (x : ℕ) : ℕ := rotr32 x 6 ^^^ rotr32 x 11 ^^^ rotr32 x 25

def smallSigma0 (x : ℕ) : ℕ := rotr32 x 7 ^^^ rotr32 x 18 ^^^ (x >>> 3)

def smallSigma1 (x : ℕ) : ℕ := rotr32 x 17 ^^^ rotr32 x 19 ^^^ (x >>> 10)

/-- The 64 SHA-256 round constants. -/
def shaK : List ℕ :=
  [1116352408, 1899447441, 3049323471, 3921009573, 961987163,
   1508970993, 2453635748, 2870763221, 3624381080, 310598401,
   607225278, 1426881987, 1925078388, 2162078206, 2614888103,
   3248222580, 3835390401, 4022224774, 264347078, 604807628,
   770255983, 1249150122, 1555081692, 1996064986, 2554220882,
   2821834349, 2952996808, 3210313671, 3336571891, 3584528711,
   113926993, 338241895, 666307205, 773529912, 1294757372,
   1396182291, 1695183700, 1986661051, 2177026350, 2456956037,
   2730485921, 2820302411, 3259730800, 3345764771, 3516065817,
   3600352804, 4094571909, 275423344, 430227734, 506948616,
   659060556, 883997877, 958139571, 1322822218, 1537002063,
   1747873779, 1955562222, 2024104815, 2227730452, 2361852424,
   2428436474, 2756734187, 3204031479, 3329325298]

/-- The SHA-256 initial hash value. -/
def shaH0 : List ℕ :=
  [1779033703, 3144134277, 1013904242, 2773480762,
   1359893119, 2600822924, 528734635, 1541459225]

/-- Merkle–Damgård padding: `0x80`, zeros, then the bit length big-endian. -/
def sha256pad (msg : List ℕ) : List ℕ :=
  let len := msg.length
  let zeros := (64 - ((len + 9) % 64)) % 64
  let lenBits := len * 8
  msg ++ [128] ++ List.replicate zeros 0 ++
    (List.range 8).map (fun i => (lenBits >>> (8 * (7 - i))) % 256)

/-- The 16 big-endian words of a 64-byte block. -/
def blockWords (block : List ℕ) : List ℕ :=
  (List.range 16).map (fun i =>
    (block.getD (4 * i) 0) * 16777216 + (block.getD (4 * i + 1) 0) * 65536 +
      (block.getD (4 * i + 2) 0) * 256 + block.getD (4 * i + 3) 0)

/-- Extension of the 16 block words to the 64-entry message schedule. -/
def msgSchedule (w16 : List ℕ) : List ℕ :=
  (List.range 48).foldl
    (fun ws _ =>
      let i := ws.length
      ws ++ [w32 (smallSigma1 (ws.getD (i - 2) 0) + ws.getD (i - 7) 0 +
        smallSigma0 (ws.getD (i - 15) 0) + ws.getD (i - 16) 0)])
    w16

/-- One SHA-256 round on the 8-word working state. -/
def shaRound (st : List ℕ) (kw : ℕ × ℕ) : List ℕ :=
  match st with
  | [a, b, c, d, e, f, g, h] =>
      let t1 := w32 (h + bigSigma1 e + shaCh e f g + kw.1 + kw.2)
      let t2 := w32 (bigSigma0 a + shaMaj a b c)
      [w32 (t1 + t2), a, b, c, w32 (d + t1), e, f, g]
  | _ => st

/-- Compression of one 64-byte block into the running hash. -/
def shaCompress (h : List ℕ) (block : List ℕ) : List ℕ :=
  let ws := msgSchedule (blockWords block)
  let st := (shaK.zip ws).foldl shaRound h
  (h.zip st).map (fun p => w32 (p.1 + p.2))

/-- SHA-256 digest bytes of a byte list. -/
def sha256bytes (msg : List ℕ) : List ℕ :=
  let padded := sha256pad msg
  let blocks := (List.range (padded.length / 64)).map
    (fun i => (padded.drop (64 * i)).take 64)
  (blocks.foldl shaCompress shaH0).flatMap
    (fun w => (List.range 4).map (fun i => (w >>> (8 * (3 - i))) % 256))

def hexChar (n : ℕ) : Char := "0123456789abcdef".toList.getD n '0'

/-- `hashlib.sha256(...).hexdigest()`. -/
def sha256hex (msg : List ℕ) : String :=
  String.mk ((sha256bytes msg).flatMap (fun b => [hexChar (b / 16), hexChar (b % 16)]))

/-- UTF-8 bytes of a string; the identifiers hashed by the pipeline are
ASCII, where UTF-8 is the code-point map. -/
def strBytes (s : String) : List ℕ :=
  s.data.map Char.toNat

/-! ## Ingestion runner (etl/ingest_runner.py) -/

/-- A CSV cell as pandas types it: numeric or string. -/
inductive Cell
  | num (q : ℚ)
  | str (s : String)
  deriving Repr, DecidableEq

/-- A dataframe: named columns over rows of cells. -/
structure Df where
  cols : List String
  rows : List (List Cell)
  deriving Repr, DecidableEq

/-- A raw CSV file of the input directory: its name, raw bytes (the hash
input) and the dataframe `pd.read_csv` yields from those bytes. -/
structure RawFile where
  name : String
  content : List ℕ
  table : Df
  deriving Repr, DecidableEq

def cellIsNum : Cell → Bool
  | Cell.num _ => true
  | Cell.str _ => false

/-- `astype(str)` rendering of a cell. -/
def renderCell : Cell → String
  | Cell.num q => toString q
  | Cell.str s => s

/-- `_normalize_dataframe`: column names stripped and lower-cased;
non-numeric columns cast to stripped strings. -/
def normalizeDataframe (df : Df) : Df :=
  let cols := df.cols.map (fun c => pyLower c.trim)
  let numericCol := fun (j : ℕ) =>
    df.rows.all (fun r => cellIsNum (r.getD j (Cell.str "")))
  let rows := df.rows.map (fun r =>
    (List.range cols.length).map (fun j =>
      let cell := r.getD j (Cell.str "")
      if numericCol j then cell else Cell.str (renderCell cell).trim))
  ⟨cols, rows⟩

/-- `REQUIRED_COLUMNS` (ingest_runner.py lines 26-30). -/
def REQUIRED_COLUMNS : List (String × List String) :=
  [("clients", ["client_code", "email"]),
   ("products", ["product_key", "name"]),
   ("sales", ["document_id", "product_key", "client_code", "quantity",
              "amount", "sale_date"])]

/-- `OPTIONAL_COLUMNS` (ingest_runner.py lines 32-36). -/
def OPTIONAL_COLUMNS : List (String × List String) :=
  [("clients", ["budget_band", "rfm_segment"]),
   ("products", ["family_crm", "price_ttc", "global_popularity_score"]),
   ("sales", ["currency", "channel"])]

/-- `_validate_contract`: blocking errors for missing required columns,
warnings for missing optional columns. -/
def validateContract (table : String) (df : Df) : List String × List String :=
  let req := (dictGet? REQUIRED_COLUMNS table).getD []
  let opt := (dictGet? OPTIONAL_COLUMNS table).getD []
  (req.filterMap (fun col =>
      if col ∈ df.cols then none
      else some (table ++ ": colonne requise absente: " ++ col)),
   opt.filterMap (fun col =>
      if col ∈ df.cols then none
      else some (table ++ ": colonne optionnelle absente: " ++ col)))

/-- `Path(name).stem`. -/
def stemOf (name : String) : String :=
  let parts := name.splitOn "."
  if parts.length ≤ 1 then name else String.intercalate "." parts.dropLast

/-- The `IngestionReport` dataclass, extended with the curated dataframes
the run writes to disk (`df.to_csv` is a function of the dataframe, so two
equal dataframes produce byte-identical curated files). -/
structure IngestionReport where
  run_id : String
  tenant_id : String
  dataset_version : String
  raw_files : List (String × String)
  staging_files : List (String × String)
  curated_files : List (String × String)
  curated_tables : List (String × Df)
  errors : List String
  warnings : List String
  rows : List (String × ℕ)
  deriving Repr, DecidableEq

/-- `run_ingestion`: `runId` stands for the fresh `uuid4` of the run; the
input directory is the list of its CSV files in `glob` order. -/
def runIngestion (runId : String) (tenantId : String) (files : List RawFile) :
    IngestionReport :=
  let baseDir := "data/" ++ tenantId ++ "/runs/" ++ runId
  let perTable := files.map (fun f =>
    let df := normalizeDataframe f.table
    let tname := stemOf f.name
    let vc := validateContract tname df
    (tname, df, vc.1, vc.2))
  let datasetParts := files.map (fun f => f.name ++ ":" ++ sha256hex f.content)
  let datasetVersion := sha256hex (strBytes (String.intercalate "|" datasetParts))
  { run_id := runId
    tenant_id := tenantId
    dataset_version := datasetVersion
    raw_files := files.map (fun f => (f.name, baseDir ++ "/raw/" ++ f.name))
    staging_files := perTable.map (fun e => (e.1, baseDir ++ "/staging/" ++ e.1 ++ ".csv"))
    curated_files := perTable.map (fun e =>
      (e.1, baseDir ++ "/curated/" ++ e.1 ++ "_curated.csv"))
    curated_tables := perTable.map (fun e => (e.1, e.2.1))
    errors := perTable.flatMap (fun e => e.2.2.1)
    warnings := perTable.flatMap (fun e => e.2.2.2)
    rows := perTable.map (fun e => (e.1, e.2.1.rows.length)) }

/-! ## Concrete states used to evaluate the claims -/

/-- A clients dataframe with `client_code` but no `email` column. -/
def clientsDfNoEmail : Df := ⟨["client_code"], [[Cell.str "C1"]]⟩

/-- A sales dataframe carrying `product_label` instead of `product_key`. -/
def salesDfLabel : Df :=
  ⟨["document_id", "product_label", "client_code", "quantity", "amount",
    "sale_date"], []⟩

/-- A client with null RFM fields, null preferences, null cluster and null
aroma profile (every feature of `ScenarioService.decide` is 0). -/
def zeroClient : Client :=
  { id := 1, tenant_id := 1, client_code := "C0", email := some "c0@t.io"
    email_opt_out := false, last_purchase_date := none
    average_order_value := none, rfm_score := none, budget_band := none
    preferred_families := none, aroma_confidence := none, cluster := none
    recency := none, frequency := none, monetary := none }

/-- A single sale: document S1, client C1, amount 100, quantity 1, sold on
the reference date (scenario S5 of the specification). -/
def rfmSale : Sale :=
  { id := 1, tenant_id := 1, document_id := some "S1"
    product_key := some "P1", client_code := "C1", quantity := some 1
    amount := some 100, sale_date := some 20000 }

/-- Default rows used with `List.getD` when stating positional facts. -/
def dummyNextAction : NextActionRow :=
  { run_id := "", tenant_id := 0, customer_code := "", eligible := false
    reason := none, scenario := none, audit_score := 0 }

/-- Default client used with `List.getD`. -/
def dummyClient : Client :=
  { id := 0, tenant_id := 0, client_code := "", email := none
    email_opt_out := false, last_purchase_date := none
    average_order_value := none, rfm_score := none, budget_band := none
    preferred_families := none, aroma_confidence := none, cluster := none
    recency := none, frequency := none, monetary := none }

/-- A minimal store: one tenant-1 client, nothing else. -/
def wDb : Db :=
  { clients := [zeroClient], products := [], sales := [], contact_events := []
    recommendations := [], reco_outputs := [], audit_outputs := []
    next_actions := [], run_summaries := [], reco_items := [], reco_runs := [] }

/-- A persisted `RecoOutput` row of an earlier run `run0` of tenant 1. -/
def priorRecoRow : RecoOutputRow :=
  { run_id := "run0", tenant_id := 1, customer_code := "C9"
    scenario := "rebuy", rank := 1, product_key := "PX", score := 0
    explain_short := "", reasons_source := "rebuy" }

/-- A store holding only that prior run artifact of tenant 1. -/
def c4Db : Db :=
  { clients := [], products := [], sales := [], contact_events := []
    recommendations := [], reco_outputs := [priorRecoRow], audit_outputs := []
    next_actions := [], run_summaries := [], reco_items := [], reco_runs := [] }

/-- A client with average order value 10 and no purchase history. -/
def c3C1 : Client :=
  { id := 1, tenant_id := 1, client_code := "C1", email := some "c1@t.io"
    email_opt_out := false, last_purchase_date := none
    average_order_value := some 10, rfm_score := none, budget_band := none
    preferred_families := none, aroma_confidence := none, cluster := none
    recency := none, frequency := none, monetary := none }

/-- A product priced exactly at that client's average order value, with a
zero popularity score. -/
def c3P1 : Product :=
  { id := 1, tenant_id := 1, product_key := "P1", name := "Rouge"
    family_crm := some "Rouge", price_ttc := some 10
    sucrosite_niveau := none, global_popularity_score := some 0
    is_active := true, is_archived := false }

/-- Store for the scoring counterexample: one client, one product. -/
def c3Db : Db :=
  { clients := [c3C1], products := [c3P1], sales := [], contact_events := []
    recommendations := [], reco_outputs := [], audit_outputs := []
    next_actions := [], run_summaries := [], reco_items := [], reco_runs := [] }

/-- Products for the rank-overshoot counterexample. -/
def c6PA : Product :=
  { id := 1, tenant_id := 1, product_key := "PA", name := "A"
    family_crm := some "F", price_ttc := some 5, sucrosite_niveau := none
    global_popularity_score := some (1/2), is_active := true
    is_archived := false }

def c6PB : Product :=
  { id := 2, tenant_id := 1, product_key := "PB", name := "B"
    family_crm := some "F", price_ttc := some 10, sucrosite_niveau := none
    global_popularity_score := some (3/10), is_active := true
    is_archived := false }

def c6PC : Product :=
  { id := 3, tenant_id := 1, product_key := "PC", name := "C"
    family_crm := none, price_ttc := none, sucrosite_niveau := none
    global_popularity_score := some (9/10), is_active := true
    is_archived := false }

/-- The client of the rank-overshoot counterexample. -/
def c6C1 : Client :=
  { id := 1, tenant_id := 1, client_code := "C1", email := some "c1@t.io"
    email_opt_out := false, last_purchase_date := some 19940
    average_order_value := some 5, rfm_score := some 7, budget_band := none
    preferred_families := none, aroma_confidence := none, cluster := none
    recency := none, frequency := none, monetary := none }

/-- C1 bought PA 60 days before the run. -/
def c6S1 : Sale :=
  { id := 1, tenant_id := 1, document_id := some "D1"
    product_key := some "PA", client_code := "C1", quantity := some 1
    amount := some 5, sale_date := some 19940 }

/-- Another customer code bought PC, making PC popular. -/
def c6S2 : Sale :=
  { id := 2, tenant_id := 1, document_id := some "D2"
    product_key := some "PC", client_code := "CX", quantity := some 2
    amount := some 9, sale_date := some 19940 }

/-- Store for the rank-overshoot counterexample. -/
def c6Db : Db :=
  { clients := [c6C1], products := [c6PA, c6PB, c6PC], sales := [c6S1, c6S2]
    contact_events := [], recommendations := [], reco_outputs := []
    audit_outputs := [], next_actions := [], run_summaries := []
    reco_items := [], reco_runs := [] }

/-- A client with complete (non-null) RFM components. -/
def completeClient : Client :=
  { zeroClient with
    id := 2
    client_code := "C2"
    recency := some 10
    frequency := some 2
    monetary := some 50 }

/-- Products of the gate-export divergence store: one family `F`, sugar
levels sec/sec/doux, no popularity scores. -/
def c1P1 : Product :=
  { id := 1, tenant_id := 1, product_key := "Q1", name := "N1"
    family_crm := some "F", price_ttc := some 10
    sucrosite_niveau := some "sec", global_popularity_score := none
    is_active := true, is_archived := false }

def c1P2 : Product :=
  { id := 2, tenant_id := 1, product_key := "Q2", name := "N2"
    family_crm := some "F", price_ttc := some 10
    sucrosite_niveau := some "sec", global_popularity_score := none
    is_active := true, is_archived := false }

def c1P3 : Product :=
  { id := 3, tenant_id := 1, product_key := "Q3", name := "N3"
    family_crm := some "F", price_ttc := some 10
    sucrosite_niveau := some "doux", global_popularity_score := none
    is_active := true, is_archived := false }

/-- Client A of the gate-export divergence store: bought all three
products 60 days before the run. -/
def c1CA : Client :=
  { id := 1, tenant_id := 1, client_code := "A", email := some "a@t.io"
    email_opt_out := false, last_purchase_date := some 19940
    average_order_value := none, rfm_score := none, budget_band := none
    preferred_families := none, aroma_confidence := none, cluster := none
    recency := none, frequency := none, monetary := none }

/-- Client B of the gate-export divergence store: no purchases. -/
def c1CB : Client :=
  { c1CA with
    id := 2
    client_code := "B"
    email := some "b@t.io"
    last_purchase_date := none }

def c1S1 : Sale :=
  { id := 1, tenant_id := 1, document_id := some "D1"
    product_key := some "Q1", client_code := "A", quantity := some 1
    amount := some 10, sale_date := some 19940 }

def c1S2 : Sale :=
  { id := 2, tenant_id := 1, document_id := some "D2"
    product_key := some "Q2", client_code := "A", quantity := some 1
    amount := some 10, sale_date := some 19940 }

def c1S3 : Sale :=
  { id := 3, tenant_id := 1, document_id := some "D3"
    product_key := some "Q3", client_code := "A", quantity := some 1
    amount := some 10, sale_date := some 19940 }

/-- Store for the gate-export divergence: two tenant-1 clients, A with
three same-family purchases (two `sec`, one `doux` product), B with none. -/
def c1Db : Db :=
  { clients := [c1CA, c1CB], products := [c1P1, c1P2, c1P3]
    sales := [c1S1, c1S2, c1S3], contact_events := []
    recommendations := [], reco_outputs := [], audit_outputs := []
    next_actions := [], run_summaries := [], reco_items := [], reco_runs := [] }

end IaCrm

namespace IaCrm

/-! ## Theorems -/

/-- Membership is invariant under the descending insertion. -/
theorem mem_insertDesc {α : Type} (key : α → ℚ) (x : α) (l : List α) (y : α) :
    y ∈ insertDesc key x l ↔ y = x ∨ y ∈ l := by
  induction l with
  | nil => simp [insertDesc]
  | cons z zs ih =>
      by_cases h : key z < key x
      · simp only [insertDesc, if_pos h, List.mem_cons] <;> tauto
      · simp only [insertDesc, if_neg h, List.mem_cons, ih] <;> tauto

theorem mem_stableSortDesc {α : Type} (key : α → ℚ) (xs : List α) (y : α) :
    y ∈ stableSortDesc key xs ↔ y ∈ xs := by
  have main : ∀ (l : List α) (acc : List α),
      y ∈ l.foldl (fun acc x => insertDesc key x acc) acc ↔ y ∈ acc ∨ y ∈ l := by
    intro l
    induction l with
    | nil => intro acc; simp
    | cons z zs ih =>
        intro acc
        simp only [List.foldl_cons, ih, mem_insertDesc, List.mem_cons]
        tauto
  simpa [stableSortDesc] using main xs []


/-- C7 counterexample: a clients table with only `client_code` (no `email`
column) gets a blocking error, and a sales table carrying `product_label`
instead of `product_key` also gets a blocking error — contradicting the
claim that `client_code` is the only required clients column and that
`product_label` satisfies the sales product requirement. -/
theorem ingest_contract_counterexample :
    (validateContract "clients" clientsDfNoEmail).1 =
      ["clients: colonne requise absente: email"] ∧
    (validateContract "sales" salesDfLabel).1 =
      ["sales: colonne requise absente: product_key"] := by
  constructor <;> rfl

/-- C7 (amended): contract validation reports a blocking error exactly when
a `REQUIRED_COLUMNS` column is missing — for `clients` these are
`client_code` AND `email` (the absence of `name` is never reported); for
`sales`, `product_key` is strictly required and `product_label` does not
substitute for it — and a warning exactly when an `OPTIONAL_COLUMNS`
column is missing. -/
theorem ingest_contract_required_columns (df : Df) :
    ((validateContract "clients" df).1 = [] ↔
      "client_code" ∈ df.cols ∧ "email" ∈ df.cols) ∧
    ((validateContract "sales" df).1 = [] ↔
      "document_id" ∈ df.cols ∧ "product_key" ∈ df.cols ∧
      "client_code" ∈ df.cols ∧ "quantity" ∈ df.cols ∧
      "amount" ∈ df.cols ∧ "sale_date" ∈ df.cols) ∧
    ((validateContract "clients" df).2 = [] ↔
      "budget_band" ∈ df.cols ∧ "rfm_segment" ∈ df.cols) := by
  refine ⟨?_, ?_, ?_⟩ <;>
    · simp only [validateContract, REQUIRED_COLUMNS, OPTIONAL_COLUMNS,
        dictGet?, List.find?, List.filterMap]
      norm_num
      split_ifs <;> simp_all

/-- C9: re-running ingestion over the same directory contents (under the
fresh run ids the two runs draw) yields the same `dataset_version` —
computed as SHA-256 of the `"name:hash|…"` concatenation over the raw
files — identical curated dataframes (hence byte-identical curated CSV
files, `to_csv` being a function of the dataframe), and the same contract
errors. -/
theorem ingestion_idempotent (rid1 rid2 tid : String) (files : List RawFile) :
    (runIngestion rid1 tid files).dataset_version =
      (runIngestion rid2 tid files).dataset_version ∧
    (runIngestion rid1 tid files).curated_tables =
      (runIngestion rid2 tid files).curated_tables ∧
    (runIngestion rid1 tid files).errors = (runIngestion rid2 tid files).errors ∧
    (runIngestion rid1 tid files).dataset_version =
      sha256hex (strBytes (String.intercalate "|"
        (files.map (fun f => f.name ++ ":" ++ sha256hex f.content)))) :=
  ⟨rfl, rfl, rfl, rfl⟩

/-- C10: when a tenant has at least one but fewer than `n_clusters` clients
with non-null recency, frequency and monetary, `compute_clusters_for_tenant`
propagates the `ValueError` raised by `kmeans`; when it has none, it
returns the empty map without raising. -/
theorem cluster_small_tenant_raises (clients : List Client) (k : ℕ)
    (rand : ℕ → ℕ)
    (hn : (clients.filter (fun c =>
      c.recency.isSome && c.frequency.isSome && c.monetary.isSome)).length < k) :
    computeClustersForTenant clients k rand =
      (if (clients.filter (fun c =>
            c.recency.isSome && c.frequency.isSome && c.monetary.isSome)).length = 0
       then Except.ok []
       else Except.error
         "Le nombre de points est inferieur au nombre de clusters") := by
  set complete := clients.filter (fun c =>
    c.recency.isSome && c.frequency.isSome && c.monetary.isSome) with hc
  by_cases h0 : complete = []
  · simp [computeClustersForTenant, ← hc, h0]
  · have hlen : complete.length ≠ 0 := by
      simpa [List.length_eq_zero] using h0
    have hnorm : (normalizeFeatures (complete.map (fun c =>
        [c.recency.getD 0, c.frequency.getD 0, c.monetary.getD 0])) 3).length =
        complete.length := by
      simp [normalizeFeatures]
    simp only [computeClustersForTenant, ← hc, if_neg h0, if_neg hlen]
    rw [kmeansE, if_pos (by rw [hnorm]; simpa using hn)]

/-- C10 witness: a tenant with no complete client yields the empty map, and
a tenant with one complete client but four requested clusters raises. -/
theorem cluster_small_tenant_raises_witness :
    computeClustersForTenant [zeroClient] 4 id = Except.ok [] ∧
    computeClustersForTenant [completeClient] 4 id =
      Except.error "Le nombre de points est inferieur au nombre de clusters" := by
  constructor
  · have h := cluster_small_tenant_raises [zeroClient] 4 id (by decide)
    simpa using h
  · have h := cluster_small_tenant_raises [completeClient] 4 id (by decide)
    simpa using h

/-- Evaluation of `_compute_basic_metrics` on the S5 tenant. -/
theorem computeBasicMetrics_rfmSale : computeBasicMetrics [rfmSale] =
    [("C1", { last_purchase_date := some 20000, total_spent := 100
              documents := ["S1"] })] := by
  norm_num [computeBasicMetrics, assocUpdate, updMetrics, rfmSale]
  decide

/-- Any quantile of a one-element sample is that element. -/
theorem npQuantile_singleton (x p : ℚ) : npQuantile [x] p = x := by
  norm_num [npQuantile, sortAsc, stableSortDesc, insertDesc]

/-- The inverse quintile score of a one-element sample is 5. -/
theorem quantileScoresR_singleton (x : ℚ) : quantileScoresR [some x] = [5] := by
  have h : (List.filterMap id [some x]) = [x] := by simp
  norm_num [quantileScoresR, h, npQuantile_singleton]

/-- The positive quintile score of a one-element sample is 1. -/
theorem scorePositive_singleton (x : ℚ) : scorePositive [some x] = [1] := by
  have h : (List.filterMap id [some x]) = [x] := by simp
  norm_num [scorePositive, h, npQuantile_singleton]

/-- C2: `compute_rfm_for_tenant` on the single-recent-sale tenant of
scenario S5 stores `rfm_score = R + F + M = 7` (with quintile scores
R=5, F=1, M=1), not the positional composition `R*100 + F*10 + M = 511`
required by the specification and by the repository's own test
`test_sales_manual_and_rfm.py` (which asserts 511 for this very state via
the sibling `client_metrics` implementation). -/
theorem rfm_score_is_sum_not_positional :
    (computeRfmForTenant [rfmSale]).map
      (fun u => (u.client_code, u.r_score, u.f_score, u.m_score, u.rfm_score)) =
      [("C1", 5, 1, 1, 7)] ∧
    (7 : ℤ) ≠ 5 * 100 + 1 * 10 + 1 := by
  constructor
  · norm_num [computeRfmForTenant, computeBasicMetrics_rfmSale, List.max?,
      quantileScoresR_singleton, scorePositive_singleton, mapSegment,
      List.range_succ, List.range_zero, List.filterMap_cons, List.filterMap_nil]
  · decide

/-- C8 counterexample: for the all-null client, the feature-weighted
selection (argmax over the default matrix) picks `cross_sell` while the
rule-based fallback picks `nurture` — the two paths disagree. -/
theorem scenario_paths_disagree :
    weightedScenario zeroClient ≠ fallbackScenario zeroClient 20000 := by
  have h1 : weightedScenario zeroClient = "cross_sell" := by
    norm_num [weightedScenario, scenarioScores, scenarioFeatures,
      defaultScenarioWeights, argmaxFirst, numOr, zeroClient]
    decide
  have h2 : fallbackScenario zeroClient 20000 = "nurture" := by
    norm_num [fallbackScenario, zeroClient]
  rw [h1, h2]
  decide

/-- C8 (amended): the feature-weighted selection and the rule-based
fallback are distinct policies and need not agree: for a client with null
rfm/recency/monetary/preferences/cluster/aroma fields the weighted argmax
returns `cross_sell` (the `families` feature `1/(1+0)` alone decides)
whereas the fallback returns `nurture`. -/
theorem scenario_weighted_vs_fallback_zero_client :
    weightedScenario zeroClient = "cross_sell" ∧
    fallbackScenario zeroClient 20000 = "nurture" := by
  constructor
  · norm_num [weightedScenario, scenarioScores, scenarioFeatures,
      defaultScenarioWeights, argmaxFirst, numOr, zeroClient]
    decide
  · norm_num [fallbackScenario, zeroClient]

/-- `add_issue` keeps the counters in sync with the issue list. -/
theorem auditInv_addIssue (s : AuditState) (sev : Severity) (rule : String)
    (h : auditInv s) : auditInv (addIssue s sev rule) := by
  obtain ⟨he, hw⟩ := h
  cases sev <;>
    simp [addIssue, auditInv, errCount, warnCount, List.countP_append, he, hw,
      List.countP_cons]

/-- Guarded `add_issue` preserves the counter invariant. -/
theorem auditInv_maybeIssue (cond : Bool) (sev : Severity) (rule : String)
    (s : AuditState) (h : auditInv s) : auditInv (maybeIssue cond sev rule s) := by
  cases cond
  · simpa [maybeIssue] using h
  · simpa [maybeIssue] using auditInv_addIssue s sev rule h

/-- One step of the reco loop preserves the counter invariant. -/
theorem auditInv_recoRuleStep (pm : List (String × Product))
    (purchasedKeys : List String) (avgPrice : ℚ) (s : AuditState) (r : RecoDict)
    (h : auditInv s) : auditInv (recoRuleStep pm purchasedKeys avgPrice s r) := by
  unfold recoRuleStep
  cases dictGet? pm r.product_key with
  | none => exact h
  | some p => exact auditInv_maybeIssue _ _ _ _ (auditInv_maybeIssue _ _ _ _ h)

/-- The whole reco loop preserves the counter invariant. -/
theorem auditInv_recoLoop (pm : List (String × Product))
    (purchasedKeys : List String) (avgPrice : ℚ) (recos : List RecoDict)
    (s : AuditState) (h : auditInv s) :
    auditInv (recos.foldl (recoRuleStep pm purchasedKeys avgPrice) s) := by
  induction recos generalizing s with
  | nil => exact h
  | cons r rest ih =>
      exact ih _ (auditInv_recoRuleStep pm purchasedKeys avgPrice s r h)

/-- The state `audit_client` ends with satisfies the counter invariant. -/
theorem auditState_inv (client : Client) (recos : List RecoDict)
    (pm : List (String × Product)) (contactEvents : List ContactEvent)
    (purchases : List Sale) (silenceWindowDays : ℤ) (now : ℤ) :
    auditInv (auditState client recos pm contactEvents purchases
      silenceWindowDays now) := by
  unfold auditState
  exact auditInv_maybeIssue _ _ _ _
    (auditInv_maybeIssue _ _ _ _
      (auditInv_recoLoop _ _ _ _ _
        (auditInv_maybeIssue _ _ _ _
          (auditInv_maybeIssue _ _ _ _
            (auditInv_maybeIssue _ _ _ _
              (auditInv_maybeIssue _ _ _ _
                (auditInv_maybeIssue _ _ _ _ ⟨rfl, rfl⟩)))))))

/-- `audit_client` computes `audit_score`, `eligible` and `reason` from
the error/warn counts of the issue list it returns, by the documented
formulas. -/
theorem auditClient_formulas (client : Client) (recos : List RecoDict)
    (pm : List (String × Product)) (contactEvents : List ContactEvent)
    (purchases : List Sale) (silenceWindowDays : ℤ) (now : ℤ) :
    (auditClient client recos pm contactEvents purchases silenceWindowDays
        now).audit_score =
      max 0 (100 - 40 * (errCount (auditClient client recos pm contactEvents
        purchases silenceWindowDays now).issues : ℚ)
        - 10 * (warnCount (auditClient client recos pm contactEvents purchases
            silenceWindowDays now).issues : ℚ)) ∧
    ((auditClient client recos pm contactEvents purchases silenceWindowDays
        now).eligible = true ↔
      errCount (auditClient client recos pm contactEvents purchases
        silenceWindowDays now).issues = 0 ∧
      (80 : ℚ) ≤ (auditClient client recos pm contactEvents purchases
        silenceWindowDays now).audit_score) ∧
    (auditClient client recos pm contactEvents purchases silenceWindowDays
        now).reason =
      (if (auditClient client recos pm contactEvents purchases
          silenceWindowDays now).eligible then none
       else some
         (match (auditClient client recos pm contactEvents purchases
             silenceWindowDays now).issues with
          | [] => "AUDIT_SCORE_BELOW_THRESHOLD"
          | i :: _ => i.rule_code)) := by
  obtain ⟨he, hw⟩ := auditState_inv client recos pm contactEvents purchases
    silenceWindowDays now
  unfold auditClient
  dsimp only
  refine ⟨by rw [he, hw], ?_, rfl⟩
  rw [he]
  simp [Bool.and_eq_true, decide_eq_true_iff]

/-- The `NextActionOutput` table after a run: prior rows of other tenants,
then one row per tenant client, in client order. -/
theorem generateRun_next_actions (db : Db) (tenantId topN : ℕ)
    (silence now : ℤ) (runId : String) (runPk : ℕ) :
    (generateRecommendationsRun db tenantId topN silence now runId
        runPk).db.next_actions =
      db.next_actions.filter (fun r => r.tenant_id != tenantId) ++
        (db.clients.filter (fun c => c.tenant_id == tenantId)).map (fun c =>
          (processClient tenantId runId runPk
            (mkProductMap (db.products.filter (fun p => p.tenant_id == tenantId)))
            (productPopularity (db.sales.filter (fun s => s.tenant_id == tenantId)))
            (db.sales.filter (fun s => s.tenant_id == tenantId))
            (db.contact_events.filter (fun ev => db.clients.any (fun cl =>
              cl.id == ev.client_id && cl.tenant_id == tenantId)))
            topN silence now c).nextAction) := by
  simp only [generateRecommendationsRun, List.map_map]
  rfl

/-- C5: for every run and every tenant client (the `i`-th in client order),
the persisted `NextActionOutput` row carries exactly the values
`audit_client` returned for that client, and those values obey the claimed
formulas: `audit_score = max(0, 100 − 40·errors − 10·warns)`,
`eligible = (errors == 0) ∧ (audit_score ≥ 80)`, and `reason` is `None`
when eligible, otherwise the rule code of the first issue raised (or
`AUDIT_SCORE_BELOW_THRESHOLD` when no issue exists). -/
theorem next_action_stores_audit_values (db : Db) (tenantId topN : ℕ)
    (silence now : ℤ) (runId : String) (runPk : ℕ) (i : ℕ)
    (h : i < (db.clients.filter (fun c => c.tenant_id == tenantId)).length) :
    let clients := db.clients.filter (fun c => c.tenant_id == tenantId)
    let pm := mkProductMap (db.products.filter (fun p => p.tenant_id == tenantId))
    let sales := db.sales.filter (fun s => s.tenant_id == tenantId)
    let events := db.contact_events.filter (fun ev => db.clients.any (fun cl =>
      cl.id == ev.client_id && cl.tenant_id == tenantId))
    let c := clients.getD i dummyClient
    let purchases := sales.filter (fun s => s.client_code == c.client_code)
    let contacts := events.filter (fun ev => ev.client_id == c.id)
    let recos := buildRecommendationsForClient c purchases pm
      (productPopularity sales) topN now
    let a := auditClient c recos pm contacts purchases silence now
    ((generateRecommendationsRun db tenantId topN silence now runId
        runPk).db.next_actions).getD
        ((db.next_actions.filter (fun r => r.tenant_id != tenantId)).length + i)
        dummyNextAction =
      { run_id := runId, tenant_id := tenantId, customer_code := c.client_code
        eligible := a.eligible, reason := a.reason
        scenario := (recos.head?).map (fun r => r.scenario)
        audit_score := a.audit_score } ∧
    a.audit_score = max 0 (100 - 40 * (errCount a.issues : ℚ)
      - 10 * (warnCount a.issues : ℚ)) ∧
    (a.eligible = true ↔ errCount a.issues = 0 ∧ (80 : ℚ) ≤ a.audit_score) ∧
    a.reason = (if a.eligible then none
      else some (match a.issues with
                 | [] => "AUDIT_SCORE_BELOW_THRESHOLD"
                 | j :: _ => j.rule_code)) := by
  intro clients pm sales events c purchases contacts recos a
  obtain ⟨h1, h2, h3⟩ := auditClient_formulas c recos pm contacts purchases
    silence now
  refine ⟨?_, h1, h2, h3⟩
  rw [generateRun_next_actions]
  rw [List.getD_eq_getElem?_getD, List.getElem?_append_right (by omega),
    Nat.add_sub_cancel_left, List.getElem?_map,
    List.getElem?_eq_getElem h]
  have hc : clients[i] = c := (List.getD_eq_getElem clients dummyClient h).symm
  rw [hc]
  simp only [processClient, Option.map_some', Option.getD_some]

/-- C5 witness: the storage/formula theorem applied to a one-client store. -/
theorem next_action_stores_audit_values_witness :
    0 < (wDb.clients.filter (fun c => c.tenant_id == 1)).length ∧
    (let clients := wDb.clients.filter (fun c => c.tenant_id == 1)
     let pm := mkProductMap (wDb.products.filter (fun p => p.tenant_id == 1))
     let sales := wDb.sales.filter (fun s => s.tenant_id == 1)
     let events := wDb.contact_events.filter (fun ev => wDb.clients.any (fun cl =>
       cl.id == ev.client_id && cl.tenant_id == 1))
     let c := clients.getD 0 dummyClient
     let purchases := sales.filter (fun s => s.client_code == c.client_code)
     let contacts := events.filter (fun ev => ev.client_id == c.id)
     let recos := buildRecommendationsForClient c purchases pm
       (productPopularity sales) 5 20000
     let a := auditClient c recos pm contacts purchases 7 20000
     ((generateRecommendationsRun wDb 1 5 7 20000 "r1" 1).db.next_actions).getD
         ((wDb.next_actions.filter (fun r => r.tenant_id != 1)).length + 0)
         dummyNextAction =
       { run_id := "r1", tenant_id := 1, customer_code := c.client_code
         eligible := a.eligible, reason := a.reason
         scenario := (recos.head?).map (fun r => r.scenario)
         audit_score := a.audit_score } ∧
     a.audit_score = max 0 (100 - 40 * (errCount a.issues : ℚ)
       - 10 * (warnCount a.issues : ℚ)) ∧
     (a.eligible = true ↔ errCount a.issues = 0 ∧ (80 : ℚ) ≤ a.audit_score) ∧
     a.reason = (if a.eligible then none
       else some (match a.issues with
                  | [] => "AUDIT_SCORE_BELOW_THRESHOLD"
                  | j :: _ => j.rule_code))) :=
  ⟨by decide, next_action_stores_audit_values wDb 1 5 7 20000 "r1" 1 0 (by decide)⟩

/-- Every `RecoOutput` row one client iteration emits carries the new
run's id and the tenant id. -/
theorem processClient_recoRows_fields (tenantId : ℕ) (runId : String)
    (runPk : ℕ) (pm : List (String × Product)) (popularity : List (String × ℚ))
    (tenantSales : List Sale) (tenantEvents : List ContactEvent)
    (topN : ℕ) (silence now : ℤ) (c : Client) :
    ∀ r ∈ (processClient tenantId runId runPk pm popularity tenantSales
      tenantEvents topN silence now c).recoRows,
      r.run_id = runId ∧ r.tenant_id = tenantId := by
  simp only [processClient, List.mem_map]
  rintro r ⟨e, _, rfl⟩
  exact ⟨rfl, rfl⟩

/-- Every `AuditOutput` row one client iteration emits carries the new
run's id and the tenant id. -/
theorem processClient_auditRows_fields (tenantId : ℕ) (runId : String)
    (runPk : ℕ) (pm : List (String × Product)) (popularity : List (String × ℚ))
    (tenantSales : List Sale) (tenantEvents : List ContactEvent)
    (topN : ℕ) (silence now : ℤ) (c : Client) :
    ∀ r ∈ (processClient tenantId runId runPk pm popularity tenantSales
      tenantEvents topN silence now c).auditRows,
      r.run_id = runId ∧ r.tenant_id = tenantId := by
  simp only [processClient, List.mem_map]
  rintro r ⟨e, _, rfl⟩
  exact ⟨rfl, rfl⟩

/-- C4 (amended): a run keeps the artifacts of *other* tenants unchanged
and replaces all artifacts of the target tenant with its own: every
surviving or new tenant row carries the fresh `run_id`, so all prior
tenant artifacts (of any earlier run) are deleted; the `RecoRun` table
itself is append-only. -/
theorem run_replaces_tenant_outputs (db : Db) (tenantId topN : ℕ)
    (silence now : ℤ) (runId : String) (runPk : ℕ) :
    let res := generateRecommendationsRun db tenantId topN silence now runId runPk
    (∀ r ∈ db.reco_outputs, r.tenant_id ≠ tenantId → r ∈ res.db.reco_outputs) ∧
    (∀ r ∈ res.db.reco_outputs, r.tenant_id = tenantId → r.run_id = runId) ∧
    (∀ r ∈ db.audit_outputs, r.tenant_id ≠ tenantId → r ∈ res.db.audit_outputs) ∧
    (∀ r ∈ res.db.audit_outputs, r.tenant_id = tenantId → r.run_id = runId) ∧
    (∀ r ∈ db.next_actions, r.tenant_id ≠ tenantId → r ∈ res.db.next_actions) ∧
    (∀ r ∈ res.db.next_actions, r.tenant_id = tenantId → r.run_id = runId) ∧
    (∀ r ∈ db.run_summaries, r.tenant_id ≠ tenantId → r ∈ res.db.run_summaries) ∧
    (∀ r ∈ res.db.run_summaries, r.tenant_id = tenantId → r.run_id = runId) ∧
    res.db.reco_runs = db.reco_runs ++
      [{ run_id := runId, tenant_id := tenantId, status := "completed"
         dataset_version := some (toString
           (db.sales.filter (fun s => s.tenant_id == tenantId)).length) }] := by
  intro res
  have hshape : res = generateRecommendationsRun db tenantId topN silence now
    runId runPk := rfl
  refine ⟨?_, ?_, ?_, ?_, ?_, ?_, ?_, ?_, rfl⟩ <;>
    simp only [hshape, generateRecommendationsRun, List.mem_append,
      List.mem_filter, List.mem_flatMap, List.mem_map]
  · intro r hr hne
    exact Or.inl ⟨hr, by simpa using hne⟩
  · rintro r (⟨_, hne⟩ | ⟨o, ⟨c, _, rfl⟩, hro⟩)
    · intro hteq
      exact absurd hteq (by simpa using hne)
    · intro _
      exact (processClient_recoRows_fields _ _ _ _ _ _ _ _ _ _ c r hro).1
  · intro r hr hne
    exact Or.inl ⟨hr, by simpa using hne⟩
  · rintro r (⟨_, hne⟩ | ⟨o, ⟨c, _, rfl⟩, hro⟩)
    · intro hteq
      exact absurd hteq (by simpa using hne)
    · intro _
      exact (processClient_auditRows_fields _ _ _ _ _ _ _ _ _ _ c r hro).1
  · intro r hr hne
    exact Or.inl ⟨hr, by simpa using hne⟩
  · rintro r (⟨_, hne⟩ | ⟨o, ⟨cl, _, rfl⟩, rfl⟩)
    · intro hteq
      exact absurd hteq (by simpa using hne)
    · intro _
      rfl
  · intro r hr hne
    exact Or.inl ⟨hr, by simpa using hne⟩
  · rintro r (⟨_, hne⟩ | hr)
    · intro hteq
      exact absurd hteq (by simpa using hne)
    · intro _
      simp only [List.mem_singleton] at hr
      subst hr
      rfl

/-- C4 counterexample: the `RecoOutput` row of the earlier run `run0` of
tenant 1 is present before a new run and absent afterwards — generating a
run deletes the persisted artifacts of prior runs of the same tenant. -/
theorem prior_run_outputs_deleted :
    priorRecoRow ∈ c4Db.reco_outputs ∧
    priorRecoRow ∉
      (generateRecommendationsRun c4Db 1 5 7 20000 "run1" 2).db.reco_outputs := by
  constructor
  · simp [c4Db]
  · simp [generateRecommendationsRun, c4Db, priorRecoRow]

/-- `add_candidates` checks the `top_n` bound only after appending, so one
call grows the reco list to at most `max (entry + 1) top_n`. -/
theorem addCandidates_length (client : Client) (topN : ℕ) (scenario : String)
    (ps : List Product) :
    ∀ (recos : List RecoDict) (added : List String),
      (addCandidates client topN scenario ps (recos, added)).1.length ≤
        max (recos.length + 1) topN := by
  induction ps with
  | nil =>
      intro recos added
      simp only [addCandidates]
      omega
  | cons p rest ih =>
      intro recos added
      simp only [addCandidates]
      split
      · exact ih recos added
      · split
        · rename_i hstop
          simp only [List.length_append, List.length_singleton]
          omega
        · rename_i hstop
          refine le_trans (ih _ _) ?_
          simp only [List.length_append, List.length_singleton] at hstop ⊢
          omega

/-- Through `add_candidates`, the `added` set stays exactly the set of
product keys of the reco list, and stays duplicate-free. -/
theorem addCandidates_sync (client : Client) (topN : ℕ) (scenario : String)
    (ps : List Product) :
    ∀ (recos : List RecoDict) (added : List String),
      added = recos.map (fun r => r.product_key) → added.Nodup →
      ((addCandidates client topN scenario ps (recos, added)).2 =
        (addCandidates client topN scenario ps (recos, added)).1.map
          (fun r => r.product_key)) ∧
      (addCandidates client topN scenario ps (recos, added)).2.Nodup := by
  induction ps with
  | nil =>
      intro recos added hs hn
      simpa only [addCandidates] using ⟨hs, hn⟩
  | cons p rest ih =>
      intro recos added hs hn
      simp only [addCandidates]
      split
      · exact ih recos added hs hn
      · rename_i hmem
        split
        · dsimp only
          constructor
          · simp [hs]
          · rw [← List.concat_eq_append]
            exact List.Nodup.concat hmem hn
        · apply ih
          · simp [hs]
          · rw [← List.concat_eq_append]
            exact List.Nodup.concat hmem hn

/-- Every reco `add_candidates` adds comes from the candidate list and
carries that product's key and `global_popularity_score or 0.0` as score. -/
theorem addCandidates_source (client : Client) (topN : ℕ) (scenario : String)
    (ps : List Product) :
    ∀ (recos : List RecoDict) (added : List String),
      ∀ r ∈ (addCandidates client topN scenario ps (recos, added)).1,
        r ∈ recos ∨ ∃ p ∈ ps, r.product_key = p.product_key ∧
          r.score = numOr p.global_popularity_score 0 := by
  induction ps with
  | nil =>
      intro recos added r hr
      simp only [addCandidates] at hr
      exact Or.inl hr
  | cons p rest ih =>
      intro recos added r hr
      simp only [addCandidates] at hr
      by_cases hmem : p.product_key ∈ added
      · rw [if_pos hmem] at hr
        rcases ih recos added r hr with h | ⟨q, hq, hk⟩
        · exact Or.inl h
        · exact Or.inr ⟨q, List.mem_cons_of_mem p hq, hk⟩
      · rw [if_neg hmem] at hr
        split at hr
        · rcases List.mem_append.mp hr with h | h
          · exact Or.inl h
          · simp only [List.mem_singleton] at h
            subst h
            exact Or.inr ⟨p, List.mem_cons_self p rest, rfl, rfl⟩
        · rcases ih _ _ r hr with h | ⟨q, hq, hk⟩
          · rcases List.mem_append.mp h with h2 | h2
            · exact Or.inl h2
            · simp only [List.mem_singleton] at h2
              subst h2
              exact Or.inr ⟨p, List.mem_cons_self p rest, rfl, rfl⟩
          · exact Or.inr ⟨q, List.mem_cons_of_mem p hq, hk⟩

/-- A successful dict lookup returns an entry of the dict. -/
theorem dictGet?_mem {α : Type} (m : List (String × α)) (k : String) (v : α)
    (h : dictGet? m k = some v) : (k, v) ∈ m := by
  unfold dictGet? at h
  obtain ⟨e, he, hev⟩ := Option.map_eq_some'.mp h
  have hk : e.1 = k := by simpa using List.find?_some he
  have hm := List.mem_of_find?_eq_some he
  have : e = (k, v) := by
    cases e
    simp_all
  rwa [this] at hm

/-- A product map value is an entry's value. -/
theorem pmValues_mem (pm : List (String × Product)) (p : Product)
    (h : p ∈ pmValues pm) : ∃ k, (k, p) ∈ pm := by
  obtain ⟨e, he, hev⟩ := List.mem_map.mp h
  exact ⟨e.1, by rwa [show (e.1, p) = e by cases e; simp_all]⟩

/-- One `_rebuy_candidates` loop iteration only adds products found in the
product map. -/
theorem rebuyStep_source (pm : List (String × Product)) (now : ℤ)
    (st : List String × List (Product × ℚ)) (s : Sale)
    (hst : ∀ u ∈ st.2, ∃ k, (k, u.1) ∈ pm) :
    ∀ u ∈ (rebuyStep pm now st s).2, ∃ k, (k, u.1) ∈ pm := by
  intro u hu
  unfold rebuyStep at hu
  rcases hq : dictGetOpt? pm s.product_key with _ | q
  · rw [hq] at hu
    exact hst u hu
  · obtain ⟨k0, hk0⟩ : ∃ k0, (k0, q) ∈ pm := by
      cases hsp : s.product_key with
      | none => rw [hsp] at hq; simp [dictGetOpt?] at hq
      | some k0 =>
          rw [hsp] at hq
          exact ⟨k0, dictGet?_mem pm k0 q hq⟩
    rw [hq] at hu
    dsimp only at hu
    by_cases hmem : q.product_key ∈ st.1
    · rw [if_pos hmem] at hu
      exact hst u hu
    · rw [if_neg hmem] at hu
      by_cases hkeep : (match s.sale_date with
        | some d => !decide (now - d < 30)
        | none => true) = true
      · rw [if_pos hkeep] at hu
        rcases List.mem_append.mp hu with h2 | h2
        · exact hst u h2
        · simp only [List.mem_singleton] at h2
          subst h2
          exact ⟨k0, hk0⟩
      · rw [if_neg hkeep] at hu
        exact hst u hu

/-- Rebuy candidates are values of the product map. -/
theorem rebuyCandidates_source (purchases : List Sale)
    (pm : List (String × Product)) (now : ℤ) :
    ∀ p ∈ rebuyCandidates purchases pm now, ∃ k, (k, p) ∈ pm := by
  intro p hp
  unfold rebuyCandidates at hp
  obtain ⟨t, ht, rfl⟩ := List.mem_map.mp hp
  rw [mem_stableSortDesc] at ht
  have main : ∀ (l : List Sale) (st : List String × List (Product × ℚ)),
      (∀ u ∈ st.2, ∃ k, (k, u.1) ∈ pm) →
      ∀ u ∈ (l.foldl (rebuyStep pm now) st).2, ∃ k, (k, u.1) ∈ pm := by
    intro l
    induction l with
    | nil => intro st hst u hu; exact hst u hu
    | cons s rest ih =>
        intro st hst u hu
        exact ih (rebuyStep pm now st s) (rebuyStep_source pm now st s hst) u hu
  exact main purchases ([], []) (by simp) t ht

/-- Cross-sell candidates are values of the product map. -/
theorem crossSellCandidates_source (popularity : List (String × ℚ))
    (purchased : List String) (pm : List (String × Product)) :
    ∀ p ∈ crossSellCandidates popularity purchased pm, ∃ k, (k, p) ∈ pm := by
  intro p hp
  unfold crossSellCandidates at hp
  obtain ⟨k, _, hk⟩ := List.mem_filterMap.mp hp
  exact ⟨k, dictGet?_mem pm k p hk⟩

/-- Upsell candidates are values of the product map. -/
theorem upsellCandidates_source (purchases : List Sale)
    (pm : List (String × Product)) (purchased : List String) (avg : ℚ) :
    ∀ p ∈ upsellCandidates purchases pm purchased avg, ∃ k, (k, p) ∈ pm := by
  intro p hp
  unfold upsellCandidates at hp
  obtain ⟨t, ht, rfl⟩ := List.mem_map.mp hp
  rw [mem_stableSortDesc] at ht
  obtain ⟨q, hq, hqt⟩ := List.mem_filterMap.mp ht
  have hq1 : t.1 = q := by
    dsimp only at hqt
    split at hqt
    · exact absurd hqt (by simp)
    · split at hqt
      · exact absurd hqt (by simp)
      · split at hqt
        · exact absurd hqt (by simp)
        · split at hqt
          · exact absurd hqt (by simp)
          · split at hqt
            · cases Option.some.inj hqt
              rfl
            · exact absurd hqt (by simp)
  rw [hq1]
  exact pmValues_mem pm q hq

/-- C3 builder lemma: every reco the builder emits takes its key from a
product-map product and stores that product's
`global_popularity_score or 0.0` as score (the composite `_compute_score`
is never consulted). -/
theorem buildRecos_source (c : Client) (purchases : List Sale)
    (pm : List (String × Product)) (pop : List (String × ℚ))
    (topN : ℕ) (now : ℤ) :
    ∀ r ∈ buildRecommendationsForClient c purchases pm pop topN now,
      ∃ k p, (k, p) ∈ pm ∧ r.product_key = p.product_key ∧
        r.score = numOr p.global_popularity_score 0 := by
  have hstep : ∀ (scen : String) (ps : List Product) (recos : List RecoDict)
      (added : List String),
      (∀ p ∈ ps, ∃ k, (k, p) ∈ pm) →
      (∀ r2 ∈ recos, ∃ k p, (k, p) ∈ pm ∧ r2.product_key = p.product_key ∧
        r2.score = numOr p.global_popularity_score 0) →
      ∀ r2 ∈ (addCandidates c topN scen ps (recos, added)).1,
        ∃ k p, (k, p) ∈ pm ∧ r2.product_key = p.product_key ∧
          r2.score = numOr p.global_popularity_score 0 := by
    intro scen ps recos added hps hrec r2 hr2
    rcases addCandidates_source c topN scen ps recos added r2 hr2 with
      h | ⟨p, hp, hk, hsc⟩
    · exact hrec r2 h
    · obtain ⟨k, hkp⟩ := hps p hp
      exact ⟨k, p, hkp, hk, hsc⟩
  intro r hr
  unfold buildRecommendationsForClient at hr
  dsimp only at hr
  split at hr
  · refine hstep _ _ _ _ ?_ ?_ r hr
    · intro p hp
      exact pmValues_mem pm p (List.mem_of_mem_filter hp)
    · intro r2 hr2
      refine hstep _ _ _ _ (crossSellCandidates_source _ _ _) ?_ r2 hr2
      intro r3 hr3
      refine hstep _ _ _ _ (upsellCandidates_source _ _ _ _) ?_ r3 hr3
      intro r4 hr4
      refine hstep _ _ _ _ (rebuyCandidates_source _ _ _) ?_ r4 hr4
      intro r5 hr5
      exact absurd hr5 (List.not_mem_nil r5)
  · refine hstep _ _ _ _ (crossSellCandidates_source _ _ _) ?_ r hr
    intro r3 hr3
    refine hstep _ _ _ _ (upsellCandidates_source _ _ _ _) ?_ r3 hr3
    intro r4 hr4
    refine hstep _ _ _ _ (rebuyCandidates_source _ _ _) ?_ r4 hr4
    intro r5 hr5
    exact absurd hr5 (List.not_mem_nil r5)

/-- `addCandidates_length`, stated over an arbitrary state pair. -/
theorem addCandidates_length_pair (client : Client) (topN : ℕ)
    (scenario : String) (ps : List Product)
    (st : List RecoDict × List String) :
    (addCandidates client topN scenario ps st).1.length ≤
      max (st.1.length + 1) topN := by
  obtain ⟨r, a⟩ := st
  exact addCandidates_length client topN scenario ps r a

/-- `addCandidates_sync`, repackaged: the emitted keys are duplicate-free
whenever the entry state is in sync. -/
theorem addCandidates_mapkey_nodup (client : Client) (topN : ℕ)
    (scen : String) (ps : List Product) (recos : List RecoDict)
    (added : List String) (hs : added = recos.map (fun r => r.product_key))
    (hn : added.Nodup) :
    ((addCandidates client topN scen ps (recos, added)).1.map
      (fun r => r.product_key)).Nodup := by
  obtain ⟨h1, h2⟩ := addCandidates_sync client topN scen ps recos added hs hn
  rw [← h1]
  exact h2

/-- C6 builder lemma: the product keys of the recos built for one client
are pairwise distinct (the `added` set guards every append). -/
theorem buildRecos_key_nodup (c : Client) (purchases : List Sale)
    (pm : List (String × Product)) (pop : List (String × ℚ))
    (topN : ℕ) (now : ℤ) :
    ((buildRecommendationsForClient c purchases pm pop topN now).map
      (fun r => r.product_key)).Nodup := by
  unfold buildRecommendationsForClient
  dsimp only
  have h1 := addCandidates_sync c topN "rebuy"
    (rebuyCandidates purchases pm now) [] [] rfl List.nodup_nil
  have h2 := addCandidates_sync c topN "upsell"
    (upsellCandidates purchases pm
      (List.filterMap (fun s => s.product_key) purchases)
      ((List.map (fun p => numOr p.price_ttc 0)
        (List.filterMap (fun s => dictGetOpt? pm s.product_key)
          purchases)).sum / ((1 ⊔ purchases.length : ℕ) : ℚ))) _ _ h1.1 h1.2
  have h3 := addCandidates_sync c topN "cross_sell"
    (crossSellCandidates pop
      (List.filterMap (fun s => s.product_key) purchases) pm) _ _ h2.1 h2.2
  split
  · exact addCandidates_mapkey_nodup c topN "nurture" _ _ _ h3.1 h3.2
  · rw [← h3.1]
    exact h3.2

/-- C6 builder lemma: the builder emits at most `top_n + 2` recos — each of
the three `add_candidates` calls can overshoot by one because the length
check runs only after an append. -/
theorem buildRecos_length (c : Client) (purchases : List Sale)
    (pm : List (String × Product)) (pop : List (String × ℚ))
    (topN : ℕ) (now : ℤ) (htop : 1 ≤ topN) :
    (buildRecommendationsForClient c purchases pm pop topN now).length ≤
      topN + 2 := by
  unfold buildRecommendationsForClient
  dsimp only
  split
  · rename_i hempty
    refine le_trans (addCandidates_length_pair _ _ _ _ _) ?_
    rw [hempty]
    simp only [List.length_nil, sup_le_iff]
    omega
  · refine le_trans (addCandidates_length_pair _ _ _ _ _) ?_
    rw [sup_le_iff]
    constructor
    · refine Nat.succ_le_succ ?_
      refine le_trans (addCandidates_length_pair _ _ _ _ _) ?_
      rw [sup_le_iff]
      constructor
      · refine Nat.succ_le_succ ?_
        refine le_trans (addCandidates_length_pair _ _ _ _ _) ?_
        simp only [List.length_nil, sup_le_iff]
        omega
      · omega
    · omega

/-- Entries of a dict after an insert: the inserted pair or an old entry. -/
theorem dictInsert_mem {α : Type} (m : List (String × α)) (k : String) (v : α) :
    ∀ e ∈ dictInsert m k v, e = (k, v) ∨ e ∈ m := by
  induction m with
  | nil =>
      intro e he
      simp only [dictInsert, List.mem_singleton] at he
      exact Or.inl he
  | cons kv rest ih =>
      intro e he
      obtain ⟨k0, v0⟩ := kv
      simp only [dictInsert] at he
      split at he
      · rcases List.mem_cons.mp he with h | h
        · rename_i heq
          subst heq
          exact Or.inl h
        · exact Or.inr (List.mem_cons_of_mem _ h)
      · rcases List.mem_cons.mp he with h | h
        · exact Or.inr (by simp [h])
        · rcases ih e h with h2 | h2
          · exact Or.inl h2
          · exact Or.inr (List.mem_cons_of_mem _ h2)

/-- The keys after a dict insert: unchanged when the key was present,
otherwise extended by it. -/
theorem dictInsert_keys {α : Type} (m : List (String × α)) (k : String) (v : α) :
    (dictInsert m k v).map Prod.fst =
      (if k ∈ m.map Prod.fst then m.map Prod.fst else m.map Prod.fst ++ [k]) := by
  induction m with
  | nil => simp [dictInsert]
  | cons kv rest ih =>
      obtain ⟨k0, v0⟩ := kv
      simp only [dictInsert]
      split
      · rename_i heq
        subst heq
        simp
      · rename_i hne
        have hkk0 : ¬ (k = k0) := fun h => hne h.symm
        simp only [List.map_cons, ih]
        by_cases hmem : k ∈ rest.map Prod.fst <;>
          simp [hmem, hkk0, List.mem_cons]

/-- Dict inserts keep the keys duplicate-free. -/
theorem dictInsert_keys_nodup {α : Type} (m : List (String × α)) (k : String)
    (v : α) (h : (m.map Prod.fst).Nodup) :
    ((dictInsert m k v).map Prod.fst).Nodup := by
  rw [dictInsert_keys]
  split
  · exact h
  · rename_i hmem
    rw [← List.concat_eq_append]
    exact List.Nodup.concat hmem h

/-- Every entry of the engine's product map binds a product to its own
`product_key`. -/
theorem mkProductMap_key_val (ps : List Product) :
    ∀ e ∈ mkProductMap ps, e.2.product_key = e.1 := by
  unfold mkProductMap
  have main : ∀ (l : List Product) (m : List (String × Product)),
      (∀ e ∈ m, e.2.product_key = e.1) →
      ∀ e ∈ l.foldl (fun m p =>
        if p.product_key = "" then m else dictInsert m p.product_key p) m,
        e.2.product_key = e.1 := by
    intro l
    induction l with
    | nil => intro m hm e he; exact hm e he
    | cons p rest ih =>
        intro m hm e he
        refine ih _ ?_ e he
        intro e2 he2
        dsimp only at he2
        split at he2
        · exact hm e2 he2
        · rcases dictInsert_mem m p.product_key p e2 he2 with h | h
          · subst h; rfl
          · exact hm e2 h
  exact main ps [] (by simp)

/-- The engine's product map has duplicate-free keys. -/
theorem mkProductMap_keys_nodup (ps : List Product) :
    ((mkProductMap ps).map Prod.fst).Nodup := by
  unfold mkProductMap
  have main : ∀ (l : List Product) (m : List (String × Product)),
      (m.map Prod.fst).Nodup →
      ((l.foldl (fun m p =>
        if p.product_key = "" then m else dictInsert m p.product_key p)
          m).map Prod.fst).Nodup := by
    intro l
    induction l with
    | nil => intro m hm; exact hm
    | cons p rest ih =>
        intro m hm
        refine ih _ ?_
        dsimp only
        split
        · exact hm
        · exact dictInsert_keys_nodup m p.product_key p hm
  exact main ps [] (by simp)

/-- Lookup of a present key in a dict with duplicate-free keys. -/
theorem dictGet?_of_mem {α : Type} (m : List (String × α)) (k : String)
    (v : α) (hnd : (m.map Prod.fst).Nodup) (hm : (k, v) ∈ m) :
    dictGet? m k = some v := by
  induction m with
  | nil => simp at hm
  | cons kv rest ih =>
      obtain ⟨k0, v0⟩ := kv
      simp only [List.map_cons, List.nodup_cons] at hnd
      rcases List.mem_cons.mp hm with h | h
      · cases h
        simp [dictGet?]
      · have hk : k0 ≠ k := by
          intro heq
          subst heq
          exact hnd.1 (by simpa using List.mem_map_of_mem Prod.fst h)
        simp only [dictGet?, List.find?]
        rw [show ((k0, v0).1 == k) = false by simpa using hk]
        exact ih hnd.2 h

/-- C3 (amended): every `RecoOutput` row a run persists is either a
preserved row of another tenant or carries, as its stored score, exactly
the `global_popularity_score or 0.0` of the recommended product — never
the weighted composite of `_compute_score`, which the run path does not
call. -/
theorem reco_score_is_popularity (db : Db) (tenantId topN : ℕ)
    (silence now : ℤ) (runId : String) (runPk : ℕ) :
    ∀ row ∈ (generateRecommendationsRun db tenantId topN silence now runId
        runPk).db.reco_outputs,
      row ∈ db.reco_outputs ∨
      ∃ p, dictGet? (mkProductMap (db.products.filter
          (fun q => q.tenant_id == tenantId))) row.product_key = some p ∧
        row.score = numOr p.global_popularity_score 0 := by
  intro row hrow
  simp only [generateRecommendationsRun, List.mem_append, List.mem_filter,
    List.mem_flatMap, List.mem_map] at hrow
  rcases hrow with ⟨h, _⟩ | ⟨o, ⟨cl, _, rfl⟩, hro⟩
  · exact Or.inl h
  · right
    simp only [processClient, List.mem_map] at hro
    obtain ⟨e, he, rfl⟩ := hro
    have he2 : e.2 ∈ buildRecommendationsForClient cl
        ((db.sales.filter (fun s => s.tenant_id == tenantId)).filter
          (fun s => s.client_code == cl.client_code))
        (mkProductMap (db.products.filter (fun q => q.tenant_id == tenantId)))
        (productPopularity (db.sales.filter (fun s => s.tenant_id == tenantId)))
        topN now := by
      rw [List.enum_eq_zip_range] at he
      exact (List.of_mem_zip he).2
    obtain ⟨k, p, hkp, hkey, hscore⟩ := buildRecos_source cl _ _ _ topN now
      e.2 he2
    refine ⟨p, ?_, hscore⟩
    have hk : p.product_key = k := mkProductMap_key_val _ (k, p) hkp
    show dictGet? _ e.2.product_key = some p
    rw [hkey, hk]
    exact dictGet?_of_mem _ k p (mkProductMap_keys_nodup _) hkp

/-- The recommendations built for the one-product store of `c3Db`. -/
theorem buildRecos_c3 :
    buildRecommendationsForClient c3C1 [] [("P1", c3P1)] [] 5 20000 =
    [{ customer_code := "C1", product_key := "P1", scenario := "nurture"
       score := 0, explain_short := "Suggestion nurture" }] := by
  norm_num [buildRecommendationsForClient, addCandidates, rebuyCandidates,
    rebuyStep, upsellCandidates, crossSellCandidates, pmValues, stableSortDesc,
    insertDesc, mostCommon, dictGet?, dictGetOpt?, numOr, explainShort,
    clientSegment, c3P1, c3C1]
  decide

/-- C3 counterexample: on a one-client / one-product store the run stores
score 0 (the product's `global_popularity_score or 0.0`) for its single
recommendation, while the claimed scenario-weighted composite — evaluated
by the source's own (never-called) `_compute_score` with the tenant's
`max_price = 10` and `max_rfm = 0` — is `0.3`: the persisted score is not
the composite. -/
theorem reco_score_not_composite :
    ((generateRecommendationsRun c3Db 1 5 7 20000 "r1" 1).db.reco_outputs).map
      (fun r => (r.customer_code, r.product_key, r.rank, r.score)) =
      [("C1", "P1", 1, 0)] ∧
    computeScore c3P1 c3C1 10 0 "nurture" = 3/10 ∧
    (0 : ℚ) ≠ 3/10 := by
  refine ⟨?_, ?_, by norm_num⟩
  · norm_num [generateRecommendationsRun, c3Db, processClient, mkProductMap,
      dictInsert, productPopularity, buildRecos_c3, c3C1, c3P1, List.enum]
    decide
  · have hlow : pyLower "nurture" = "nurture" := by decide
    have e1 : ("winback" == "nurture") = false := by decide
    have e2 : ("rebuy" == "nurture") = false := by decide
    have e3 : ("cross_sell" == "nurture") = false := by decide
    have e4 : ("upsell" == "nurture") = false := by decide
    norm_num [computeScore, hlow, SCORING_WEIGHTS, dictGet?, List.find?, numOr,
      c3P1, c3C1, e1, e2, e3, e4]

/-- Witness for `reco_score_is_popularity`: the single row the run stores
for the one-product store `c3Db` carries the product's popularity score. -/
theorem reco_score_is_popularity_witness :
    ({ run_id := "r1", tenant_id := 1, customer_code := "C1",
       scenario := "nurture", rank := 1, product_key := "P1", score := 0,
       explain_short := "Suggestion nurture", reasons_source := "nurture" } :
        RecoOutputRow) ∈
      (generateRecommendationsRun c3Db 1 5 7 20000 "r1" 1).db.reco_outputs ∧
    (({ run_id := "r1", tenant_id := 1, customer_code := "C1",
        scenario := "nurture", rank := 1, product_key := "P1", score := 0,
        explain_short := "Suggestion nurture", reasons_source := "nurture" } :
         RecoOutputRow) ∈ c3Db.reco_outputs ∨
     ∃ p, dictGet? (mkProductMap (c3Db.products.filter
         (fun q => q.tenant_id == 1))) "P1" = some p ∧
       (0 : ℚ) = numOr p.global_popularity_score 0) := by
  have b0 : ¬("P1" = "") := by decide
  have hclients : List.filter (fun c : Client => c.tenant_id == 1) [c3C1] = [c3C1] := by decide
  have hpmf : List.filter (fun p : Product => p.tenant_id == 1) [c3P1] = [c3P1] := by decide
  have hpm : mkProductMap [c3P1] = [("P1", c3P1)] := by
    simp only [mkProductMap, dictInsert, List.foldl_cons, List.foldl_nil, c3P1]
    norm_num [b0]
  have hcc : c3C1.client_code = "C1" := rfl
  have hout : (generateRecommendationsRun c3Db 1 5 7 20000 "r1" 1).db.reco_outputs =
      [{ run_id := "r1"
         tenant_id := 1
         customer_code := "C1"
         scenario := "nurture"
         rank := 1
         product_key := "P1"
         score := 0
         explain_short := "Suggestion nurture"
         reasons_source := "nurture" }] := by
    have n1 : ¬("nurture" = "rebuy") := by decide
    have n2 : ¬("nurture" = "cross_sell") := by decide
    have n3 : ¬("nurture" = "upsell") := by decide
    norm_num [generateRecommendationsRun, c3Db, processClient, hclients, hpmf,
      hpm, hcc, productPopularity, buildRecos_c3, List.enum, List.enumFrom]
    norm_num [c3P1, c3C1, numOr, explainShort, clientSegment, n1, n2, n3]
    decide
  have hmem :
      ({ run_id := "r1"
         tenant_id := 1
         customer_code := "C1"
         scenario := "nurture"
         rank := 1
         product_key := "P1"
         score := 0
         explain_short := "Suggestion nurture"
         reasons_source := "nurture" } :
        RecoOutputRow) ∈
      (generateRecommendationsRun c3Db 1 5 7 20000 "r1" 1).db.reco_outputs := by
    rw [hout]
    exact List.mem_singleton.mpr rfl
  exact ⟨hmem, reco_score_is_popularity c3Db 1 5 7 20000 "r1" 1 _ hmem⟩

/-- `enumerate(…, start=1)` indices are `1..k`. -/
theorem enum_map_fst_add_one {α : Type} (l : List α) :
    l.enum.map (fun e => e.1 + 1) = (List.range l.length).map (fun n => n + 1) := by
  rw [show (fun e : ℕ × α => e.1 + 1) = ((fun n => n + 1) ∘ Prod.fst) from rfl,
    ← List.map_map, List.enum_map_fst]

/-- Mapping a function of the payload over an enumeration. -/
theorem enum_map_snd_f {α β : Type} (l : List α) (g : α → β) :
    l.enum.map (fun e => g e.2) = l.map g := by
  rw [show (fun e : ℕ × α => g e.2) = (g ∘ Prod.snd) from rfl,
    ← List.map_map, List.enum_map_snd]

/-- The ranks of one client's emitted rows are `1..k`, contiguous. -/
theorem processClient_recoRows_rank (tenantId : ℕ) (runId : String)
    (runPk : ℕ) (pm : List (String × Product)) (popularity : List (String × ℚ))
    (tenantSales : List Sale) (tenantEvents : List ContactEvent)
    (topN : ℕ) (silence now : ℤ) (c : Client) :
    ((processClient tenantId runId runPk pm popularity tenantSales
        tenantEvents topN silence now c).recoRows).map (fun r => r.rank) =
      (List.range ((processClient tenantId runId runPk pm popularity
        tenantSales tenantEvents topN silence now c).recoRows).length).map
        (fun n => n + 1) := by
  simp only [processClient, List.map_map, List.length_map, List.enum_length]
  exact enum_map_fst_add_one (buildRecommendationsForClient c
    (tenantSales.filter (fun s => s.client_code == c.client_code)) pm
    popularity topN now)

/-- The product keys of one client's emitted rows are the builder's keys. -/
theorem processClient_recoRows_keys (tenantId : ℕ) (runId : String)
    (runPk : ℕ) (pm : List (String × Product)) (popularity : List (String × ℚ))
    (tenantSales : List Sale) (tenantEvents : List ContactEvent)
    (topN : ℕ) (silence now : ℤ) (c : Client) :
    ((processClient tenantId runId runPk pm popularity tenantSales
        tenantEvents topN silence now c).recoRows).map (fun r => r.product_key) =
      (buildRecommendationsForClient c
        (tenantSales.filter (fun s => s.client_code == c.client_code)) pm
        popularity topN now).map (fun r => r.product_key) := by
  simp only [processClient, List.map_map]
  exact enum_map_snd_f (buildRecommendationsForClient c
    (tenantSales.filter (fun s => s.client_code == c.client_code)) pm
    popularity topN now) (fun r => r.product_key)

/-- One client's emitted row count is the builder's reco count. -/
theorem processClient_recoRows_length (tenantId : ℕ) (runId : String)
    (runPk : ℕ) (pm : List (String × Product)) (popularity : List (String × ℚ))
    (tenantSales : List Sale) (tenantEvents : List ContactEvent)
    (topN : ℕ) (silence now : ℤ) (c : Client) :
    ((processClient tenantId runId runPk pm popularity tenantSales
        tenantEvents topN silence now c).recoRows).length =
      (buildRecommendationsForClient c
        (tenantSales.filter (fun s => s.client_code == c.client_code)) pm
        popularity topN now).length := by
  simp [processClient, List.enum_length]

/-- Every row one client iteration emits carries that client's code. -/
theorem processClient_recoRows_code (tenantId : ℕ) (runId : String)
    (runPk : ℕ) (pm : List (String × Product)) (popularity : List (String × ℚ))
    (tenantSales : List Sale) (tenantEvents : List ContactEvent)
    (topN : ℕ) (silence now : ℤ) (c : Client) :
    ∀ r ∈ (processClient tenantId runId runPk pm popularity tenantSales
      tenantEvents topN silence now c).recoRows,
      r.customer_code = c.client_code := by
  simp only [processClient, List.mem_map]
  rintro r ⟨e, _, rfl⟩
  rfl

/-- Filtering the concatenated per-client blocks by one client's code
(under pairwise-distinct codes) yields exactly that client's block. -/
theorem filter_recoRows_blocks (tenantId : ℕ) (runId : String) (runPk : ℕ)
    (pm : List (String × Product)) (pop : List (String × ℚ))
    (sales : List Sale) (events : List ContactEvent) (topN : ℕ)
    (silence now : ℤ) (c : Client) :
    ∀ (l : List Client), (l.map (fun x => x.client_code)).Nodup → c ∈ l →
      ((l.map (processClient tenantId runId runPk pm pop sales events topN
        silence now)).flatMap (fun o => o.recoRows)).filter
          (fun r => r.run_id == runId && r.customer_code == c.client_code) =
        (processClient tenantId runId runPk pm pop sales events topN silence
          now c).recoRows := by
  intro l
  induction l with
  | nil => intro _ habs; exact absurd habs (List.not_mem_nil c)
  | cons x xs ih =>
      intro hnd hmem
      simp only [List.map_cons, List.flatMap_cons, List.filter_append]
      simp only [List.map_cons, List.nodup_cons] at hnd
      rcases List.mem_cons.mp hmem with rfl | hmem2
      · have hself : ∀ r ∈ (processClient tenantId runId runPk pm pop sales
            events topN silence now c).recoRows,
            (r.run_id == runId && r.customer_code == c.client_code) = true := by
          intro r hr
          have h1 := (processClient_recoRows_fields tenantId runId runPk pm
            pop sales events topN silence now c r hr).1
          have h2 := processClient_recoRows_code tenantId runId runPk pm pop
            sales events topN silence now c r hr
          simp [h1, h2]
        have hrest : ((xs.map (processClient tenantId runId runPk pm pop sales
            events topN silence now)).flatMap (fun o => o.recoRows)).filter
            (fun r => r.run_id == runId && r.customer_code == c.client_code) =
            [] := by
          rw [List.filter_eq_nil_iff]
          intro r hr
          obtain ⟨o, ho, hro⟩ := List.mem_flatMap.mp hr
          obtain ⟨y, hy, rfl⟩ := List.mem_map.mp ho
          have hcode := processClient_recoRows_code tenantId runId runPk pm
            pop sales events topN silence now y r hro
          have hne : y.client_code ≠ c.client_code := by
            intro heq
            exact hnd.1 (heq ▸ List.mem_map_of_mem (fun x => x.client_code) hy)
          simp [hcode, hne]
        rw [List.filter_eq_self.mpr hself, hrest, List.append_nil]
      · have hxne : x.client_code ≠ c.client_code := by
          intro heq
          exact hnd.1 (heq.symm ▸ List.mem_map_of_mem
            (fun v => v.client_code) hmem2)
        have hx : ((processClient tenantId runId runPk pm pop sales events
            topN silence now x).recoRows).filter
            (fun r => r.run_id == runId && r.customer_code == c.client_code) =
            [] := by
          rw [List.filter_eq_nil_iff]
          intro r hr
          have hcode := processClient_recoRows_code tenantId runId runPk pm
            pop sales events topN silence now x r hr
          simp [hcode, hxne]
        rw [hx, List.nil_append]
        exact ih hnd.2 hmem2

/-- C6 (amended): for every run over a tenant whose client codes are
pairwise distinct and whose run id is fresh, and for every tenant client,
the persisted `RecoOutput` rows of the `(run_id, customer_code)` pair have
ranks forming the contiguous sequence `1..k` and pairwise-distinct product
keys — but `k` is only bounded by `top_n + 2`, not `top_n`: each of the
three `add_candidates` passes may overshoot by one because the length
check runs only after an append. -/
theorem reco_ranks_contiguous_distinct (db : Db) (tenantId topN : ℕ)
    (silence now : ℤ) (runId : String) (runPk : ℕ)
    (htop : 1 ≤ topN)
    (hfresh : ∀ r ∈ db.reco_outputs, r.run_id ≠ runId)
    (hcodes : ((db.clients.filter (fun c => c.tenant_id == tenantId)).map
      (fun c => c.client_code)).Nodup)
    (c : Client)
    (hc : c ∈ db.clients.filter (fun c => c.tenant_id == tenantId)) :
    let rows := ((generateRecommendationsRun db tenantId topN silence now
      runId runPk).db.reco_outputs).filter
        (fun r => r.run_id == runId && r.customer_code == c.client_code)
    (rows.map (fun r => r.rank) =
      (List.range rows.length).map (fun n => n + 1)) ∧
    (rows.map (fun r => r.product_key)).Nodup ∧
    rows.length ≤ topN + 2 := by
  intro rows
  have hrows : rows = (processClient tenantId runId runPk
      (mkProductMap (db.products.filter (fun p => p.tenant_id == tenantId)))
      (productPopularity (db.sales.filter (fun s => s.tenant_id == tenantId)))
      (db.sales.filter (fun s => s.tenant_id == tenantId))
      (db.contact_events.filter (fun ev => db.clients.any (fun cl =>
        cl.id == ev.client_id && cl.tenant_id == tenantId)))
      topN silence now c).recoRows := by
    show ((generateRecommendationsRun db tenantId topN silence now runId
      runPk).db.reco_outputs).filter _ = _
    have hgen : (generateRecommendationsRun db tenantId topN silence now runId
        runPk).db.reco_outputs =
        db.reco_outputs.filter (fun r => r.tenant_id != tenantId) ++
          ((db.clients.filter (fun c => c.tenant_id == tenantId)).map
            (processClient tenantId runId runPk
              (mkProductMap (db.products.filter (fun p => p.tenant_id == tenantId)))
              (productPopularity (db.sales.filter (fun s => s.tenant_id == tenantId)))
              (db.sales.filter (fun s => s.tenant_id == tenantId))
              (db.contact_events.filter (fun ev => db.clients.any (fun cl =>
                cl.id == ev.client_id && cl.tenant_id == tenantId)))
              topN silence now)).flatMap (fun o => o.recoRows) := rfl
    rw [hgen, List.filter_append]
    have hkept : (db.reco_outputs.filter
        (fun r => r.tenant_id != tenantId)).filter
        (fun r => r.run_id == runId && r.customer_code == c.client_code) = [] := by
      rw [List.filter_eq_nil_iff]
      intro r hr
      have hr2 : r ∈ db.reco_outputs := List.mem_of_mem_filter hr
      simp [hfresh r hr2]
    rw [hkept, List.nil_append]
    exact filter_recoRows_blocks tenantId runId runPk _ _ _ _ topN silence
      now c _ hcodes hc
  rw [hrows]
  refine ⟨processClient_recoRows_rank _ _ _ _ _ _ _ _ _ _ c, ?_, ?_⟩
  · rw [processClient_recoRows_keys]
    exact buildRecos_key_nodup _ _ _ _ _ _
  · rw [processClient_recoRows_length]
    exact buildRecos_length _ _ _ _ _ _ htop

/-- Evaluation of `_build_recommendations_for_client` at the overshoot
store: with `top_n = 1` the builder emits three recommendations — the
rebuy, upsell and cross-sell passes each append one candidate before
their length check. -/
theorem c6_build : buildRecommendationsForClient c6C1 [c6S1]
    [("PA", c6PA), ("PB", c6PB), ("PC", c6PC)] [("PA", 1), ("PC", 2)] 1 20000 =
    [{ customer_code := "C1", product_key := "PA", scenario := "rebuy",
       score := 1/2, explain_short := explainShort "rebuy" c6PA "global" },
     { customer_code := "C1", product_key := "PB", scenario := "upsell",
       score := 3/10, explain_short := explainShort "upsell" c6PB "global" },
     { customer_code := "C1", product_key := "PC", scenario := "cross_sell",
       score := 9/10, explain_short := explainShort "cross_sell" c6PC "global" }] := by
  have a1 : ¬("PB" = "PA") := by decide
  have a2 : ¬("PC" = "PA") := by decide
  have a3 : ¬("PC" = "PB") := by decide
  have a4 : ¬("PA" = "PB") := by decide
  have a5 : ¬("PA" = "PC") := by decide
  have a6 : ¬("PB" = "PC") := by decide
  norm_num [a1, a2, a3, a4, a5, a6, buildRecommendationsForClient, addCandidates, rebuyCandidates,
    rebuyStep, upsellCandidates, crossSellCandidates, pmValues, stableSortDesc,
    insertDesc, mostCommon, bumpCounter, dictGet?, dictGetOpt?, numOr,
    clientSegment, c6C1, c6PA, c6PB, c6PC, c6S1, List.filterMap_cons,
    List.filterMap_nil, List.foldl_cons, List.foldl_nil, List.find?]

set_option maxHeartbeats 1000000 in
/-- **C6** counterexample: in the overshoot store (one tenant-1 client
`C1`, three products, `top_n = 1`) the run persists three `RecoOutput`
rows for `("r1", "C1")` — ranks 1, 2, 3 with keys `PA`, `PB`, `PC` — so
`k = 3` exceeds `top_n = 1`, refuting the claimed bound `k ≤ top_n`. -/
theorem reco_topn_exceeded :
    ((((generateRecommendationsRun c6Db 1 1 7 20000 "r1" 1).db.reco_outputs).filter
      (fun r => r.run_id == "r1" && r.customer_code == "C1")).map
        (fun r => (r.rank, r.product_key)) = [(1, "PA"), (2, "PB"), (3, "PC")]) ∧
    ¬((((generateRecommendationsRun c6Db 1 1 7 20000 "r1" 1).db.reco_outputs).filter
      (fun r => r.run_id == "r1" && r.customer_code == "C1")).length ≤ 1) := by
  have h : (((generateRecommendationsRun c6Db 1 1 7 20000 "r1" 1).db.reco_outputs).filter
      (fun r => r.run_id == "r1" && r.customer_code == "C1")).map
        (fun r => (r.rank, r.product_key)) = [(1, "PA"), (2, "PB"), (3, "PC")] := by
    have hclients : List.filter (fun c : Client => c.tenant_id == 1) [c6C1] = [c6C1] := by decide
    have hsales : List.filter (fun s : Sale => s.tenant_id == 1) [c6S1, c6S2] = [c6S1, c6S2] := by decide
    have hpurch : List.filter (fun s : Sale => s.client_code == "C1") [c6S1, c6S2] = [c6S1] := by decide
    have hpmf : List.filter (fun p : Product => p.tenant_id == 1) [c6PA, c6PB, c6PC] = [c6PA, c6PB, c6PC] := by
      simp [List.filter, c6PA, c6PB, c6PC]
    have hpm : mkProductMap [c6PA, c6PB, c6PC] = [("PA", c6PA), ("PB", c6PB), ("PC", c6PC)] := by
      have b1 : ¬("PA" = "") := by decide
      have b2 : ¬("PB" = "") := by decide
      have b3 : ¬("PC" = "") := by decide
      have b4 : ¬("PA" = "PB") := by decide
      have b5 : ¬("PA" = "PC") := by decide
      have b6 : ¬("PB" = "PC") := by decide
      simp only [mkProductMap, dictInsert, List.foldl_cons, List.foldl_nil, c6PA, c6PB, c6PC]
      norm_num [b1, b2, b3, b4, b5, b6]
    have a2 : ¬("PC" = "PA") := by decide
    have b1 : ¬("PA" = "") := by decide
    have b3 : ¬("PC" = "") := by decide
    have b5 : ¬("PA" = "PC") := by decide
    have hpop : productPopularity [c6S1, c6S2] = [("PA", 1), ("PC", 2)] := by
      norm_num [productPopularity, bumpCounter, numOr, c6S1, c6S2, a2, b1, b3, b5,
        List.filterMap_cons, List.filterMap_nil, List.foldl_cons, List.foldl_nil]
    have hcc : c6C1.client_code = "C1" := rfl
    norm_num [generateRecommendationsRun, c6Db, processClient, hclients, hsales,
      hpurch, hpmf, hpm, hpop, c6_build, hcc, List.enum, List.enumFrom]
  refine ⟨h, ?_⟩
  have hl := congrArg List.length h
  rw [List.length_map] at hl
  simp only [hl]
  decide

/-- Witness for `reco_ranks_contiguous_distinct`: at the overshoot store
(tenant 1, `top_n = 1`, client `C1`) the hypotheses hold concretely and
the persisted rows for `("r1", "C1")` have contiguous ranks `1..k`,
distinct keys, and `k ≤ top_n + 2`. -/
theorem reco_ranks_contiguous_distinct_witness :
    (1 ≤ 1) ∧
    (∀ r ∈ c6Db.reco_outputs, r.run_id ≠ "r1") ∧
    (((c6Db.clients.filter (fun c => c.tenant_id == 1)).map
      (fun c => c.client_code)).Nodup) ∧
    c6C1 ∈ c6Db.clients.filter (fun c => c.tenant_id == 1) ∧
    (let rows := ((generateRecommendationsRun c6Db 1 1 7 20000 "r1"
        1).db.reco_outputs).filter
      (fun r => r.run_id == "r1" && r.customer_code == c6C1.client_code)
     (rows.map (fun r => r.rank) =
       (List.range rows.length).map (fun n => n + 1)) ∧
     (rows.map (fun r => r.product_key)).Nodup ∧
     rows.length ≤ 1 + 2) :=
  ⟨le_refl 1, by decide, by decide, by decide,
   reco_ranks_contiguous_distinct c6Db 1 1 7 20000 "r1" 1 (le_refl 1)
     (by decide) (by decide) c6C1 (by decide)⟩

/-- Builder evaluation at the gate-export store, client A: three rebuy
recommendations (one per purchased product). -/
theorem c1_buildA : buildRecommendationsForClient c1CA [c1S1, c1S2, c1S3]
    [("Q1", c1P1), ("Q2", c1P2), ("Q3", c1P3)] [("Q1", 1), ("Q2", 1), ("Q3", 1)] 3 20000 =
    [{ customer_code := "A", product_key := "Q1", scenario := "rebuy",
       score := 0, explain_short := explainShort "rebuy" c1P1 "global" },
     { customer_code := "A", product_key := "Q2", scenario := "rebuy",
       score := 0, explain_short := explainShort "rebuy" c1P2 "global" },
     { customer_code := "A", product_key := "Q3", scenario := "rebuy",
       score := 0, explain_short := explainShort "rebuy" c1P3 "global" }] := by
  have a1 : ¬("Q2" = "Q1") := by decide
  have a2 : ¬("Q3" = "Q1") := by decide
  have a3 : ¬("Q3" = "Q2") := by decide
  have a4 : ¬("Q1" = "Q2") := by decide
  have a5 : ¬("Q1" = "Q3") := by decide
  have a6 : ¬("Q2" = "Q3") := by decide
  norm_num [a1, a2, a3, a4, a5, a6, buildRecommendationsForClient, addCandidates,
    rebuyCandidates, rebuyStep, upsellCandidates, crossSellCandidates, pmValues,
    stableSortDesc, insertDesc, mostCommon, bumpCounter, dictGet?, dictGetOpt?,
    numOr, clientSegment, c1CA, c1P1, c1P2, c1P3, c1S1, c1S2, c1S3,
    List.filterMap_cons, List.filterMap_nil, List.foldl_cons, List.foldl_nil,
    List.find?]

/-- Builder evaluation at the gate-export store, client B: with no
purchases the rebuy and upsell passes are empty and the popularity-ranked
cross-sell pass emits all three products. -/
theorem c1_buildB : buildRecommendationsForClient c1CB []
    [("Q1", c1P1), ("Q2", c1P2), ("Q3", c1P3)] [("Q1", 1), ("Q2", 1), ("Q3", 1)] 3 20000 =
    [{ customer_code := "B", product_key := "Q1", scenario := "cross_sell",
       score := 0, explain_short := explainShort "cross_sell" c1P1 "global" },
     { customer_code := "B", product_key := "Q2", scenario := "cross_sell",
       score := 0, explain_short := explainShort "cross_sell" c1P2 "global" },
     { customer_code := "B", product_key := "Q3", scenario := "cross_sell",
       score := 0, explain_short := explainShort "cross_sell" c1P3 "global" }] := by
  have a1 : ¬("Q2" = "Q1") := by decide
  have a2 : ¬("Q3" = "Q1") := by decide
  have a3 : ¬("Q3" = "Q2") := by decide
  have a4 : ¬("Q1" = "Q2") := by decide
  have a5 : ¬("Q1" = "Q3") := by decide
  have a6 : ¬("Q2" = "Q3") := by decide
  norm_num [a1, a2, a3, a4, a5, a6, buildRecommendationsForClient, addCandidates,
    rebuyCandidates, rebuyStep, upsellCandidates, crossSellCandidates, pmValues,
    stableSortDesc, insertDesc, mostCommon, bumpCounter, dictGet?, dictGetOpt?,
    numOr, clientSegment, c1CB, c1CA, c1P1, c1P2, c1P3,
    List.filterMap_cons, List.filterMap_nil, List.foldl_cons, List.foldl_nil,
    List.find?]

/-- Audit evaluation at the gate-export store, client A: exactly two
warnings (`LOW_DIVERSITY`, `SUGAR_MISMATCH`), no error, score 80,
eligible. -/
theorem c1_auditA : auditClient c1CA
    [{ customer_code := "A", product_key := "Q1", scenario := "rebuy",
       score := 0, explain_short := explainShort "rebuy" c1P1 "global" },
     { customer_code := "A", product_key := "Q2", scenario := "rebuy",
       score := 0, explain_short := explainShort "rebuy" c1P2 "global" },
     { customer_code := "A", product_key := "Q3", scenario := "rebuy",
       score := 0, explain_short := explainShort "rebuy" c1P3 "global" }]
    [("Q1", c1P1), ("Q2", c1P2), ("Q3", c1P3)] [] [c1S1, c1S2, c1S3] 7 20000 =
    ⟨[⟨Severity.warn, "LOW_DIVERSITY"⟩, ⟨Severity.warn, "SUGAR_MISMATCH"⟩],
     80, true, none⟩ := by
  have a1 : ¬("Q2" = "Q1") := by decide
  have a2 : ¬("Q3" = "Q1") := by decide
  have a3 : ¬("Q3" = "Q2") := by decide
  have a4 : ¬("Q1" = "Q2") := by decide
  have a5 : ¬("Q1" = "Q3") := by decide
  have a6 : ¬("Q2" = "Q3") := by decide
  have h1 : ¬("Q1" = "") := by decide
  have h2 : ¬("Q2" = "") := by decide
  have h3 : ¬("Q3" = "") := by decide
  have h4 : ¬("a@t.io" = "") := by decide
  have h5 : pyLower "rebuy" = "rebuy" := by decide
  have h6 : ¬("rebuy" = "upsell") := by decide
  have h7 : ¬("rebuy" = "cross_sell") := by decide
  have h8 : pyLower "sec" = "sec" := by decide
  have h9 : pyLower "doux" = "doux" := by decide
  have h10 : ¬("sec" = "") := by decide
  have h11 : ¬("doux" = "") := by decide
  have h12 : ¬("doux" = "sec") := by decide
  have h13 : ¬(Severity.warn = Severity.error) := by decide
  have h14 : ¬("F" = "") := by decide
  have q11 : ("Q1" == "Q1") = true := by decide
  have q22 : ("Q2" == "Q2") = true := by decide
  have q33 : ("Q3" == "Q3") = true := by decide
  have q12 : ("Q1" == "Q2") = false := by decide
  have q13 : ("Q1" == "Q3") = false := by decide
  have q21 : ("Q2" == "Q1") = false := by decide
  have q23 : ("Q2" == "Q3") = false := by decide
  have q31 : ("Q3" == "Q1") = false := by decide
  have q32 : ("Q3" == "Q2") = false := by decide
  have qf : ("F" == "F") = true := by decide
  have qs1 : ("sec" == "sec") = true := by decide
  have qs2 : ("doux" == "sec") = false := by decide
  have qs3 : ("sec" == "doux") = false := by decide
  have p1 : ¬("sec" = "doux") := by decide
  have e1 : ("sec" == "") = false := by decide
  have e2 : ("doux" == "") = false := by decide
  have e3 : ("sec" != "") = true := by decide
  have e4 : ("doux" != "") = true := by decide
  have e5 : ("sec" != "sec") = false := by decide
  have e6 : ("doux" != "sec") = true := by decide
  norm_num [p1, e1, e2, e3, e4, e5, e6, List.cons_ne_nil, ne_eq,
    q11, q22, q33, q12, q13, q21, q23, q31, q32, qf, qs1, qs2, qs3,
    a1, a2, a3, a4, a5, a6, h1, h2, h3, h4, h5, h6, h7, h8, h9, h10,
    h11, h12, h13, h14, auditClient, auditState, maybeIssue, addIssue,
    recoRuleStep, optStrTruthy, bounceCond, silenceCond, sugarMismatchCond,
    lowDiversityCond, dominantSugar, mostCommonStr, countStr, mostCommon,
    stableSortDesc, insertDesc, bumpCounter, avgPurchasePrice, dictGet?,
    dictGetOpt?, numOr, errCount, warnCount, c1CA, c1P1, c1P2, c1P3, c1S1,
    c1S2, c1S3, List.filterMap_cons, List.filterMap_nil, List.foldl_cons,
    List.foldl_nil, List.find?, List.any_nil, List.countP_cons, List.countP_nil,
    max_eq_right]

/-- Audit evaluation at the gate-export store, client B: exactly one
warning (`LOW_DIVERSITY`), no error, score 90, eligible. -/
theorem c1_auditB : auditClient c1CB
    [{ customer_code := "B", product_key := "Q1", scenario := "cross_sell",
       score := 0, explain_short := explainShort "cross_sell" c1P1 "global" },
     { customer_code := "B", product_key := "Q2", scenario := "cross_sell",
       score := 0, explain_short := explainShort "cross_sell" c1P2 "global" },
     { customer_code := "B", product_key := "Q3", scenario := "cross_sell",
       score := 0, explain_short := explainShort "cross_sell" c1P3 "global" }]
    [("Q1", c1P1), ("Q2", c1P2), ("Q3", c1P3)] [] [] 7 20000 =
    ⟨[⟨Severity.warn, "LOW_DIVERSITY"⟩], 90, true, none⟩ := by
  have a1 : ¬("Q2" = "Q1") := by decide
  have a2 : ¬("Q3" = "Q1") := by decide
  have a3 : ¬("Q3" = "Q2") := by decide
  have a4 : ¬("Q1" = "Q2") := by decide
  have a5 : ¬("Q1" = "Q3") := by decide
  have a6 : ¬("Q2" = "Q3") := by decide
  have h1 : ¬("Q1" = "") := by decide
  have h2 : ¬("Q2" = "") := by decide
  have h3 : ¬("Q3" = "") := by decide
  have h4 : ¬("b@t.io" = "") := by decide
  have h5 : pyLower "cross_sell" = "cross_sell" := by decide
  have h6 : ¬("cross_sell" = "upsell") := by decide
  have h13 : ¬(Severity.warn = Severity.error) := by decide
  have h14 : ¬("F" = "") := by decide
  have q11 : ("Q1" == "Q1") = true := by decide
  have q22 : ("Q2" == "Q2") = true := by decide
  have q33 : ("Q3" == "Q3") = true := by decide
  have q12 : ("Q1" == "Q2") = false := by decide
  have q13 : ("Q1" == "Q3") = false := by decide
  have q21 : ("Q2" == "Q1") = false := by decide
  have q23 : ("Q2" == "Q3") = false := by decide
  have q31 : ("Q3" == "Q1") = false := by decide
  have q32 : ("Q3" == "Q2") = false := by decide
  have qf : ("F" == "F") = true := by decide
  norm_num [a1, a2, a3, a4, a5, a6, h1, h2, h3, h4, h5, h6, h13, h14,
    q11, q22, q33, q12, q13, q21, q23, q31, q32, qf, List.cons_ne_nil, ne_eq,
    auditClient, auditState, maybeIssue, addIssue,
    recoRuleStep, optStrTruthy, bounceCond, silenceCond, sugarMismatchCond,
    lowDiversityCond, dominantSugar, mostCommonStr, countStr, mostCommon,
    stableSortDesc, insertDesc, bumpCounter, avgPurchasePrice, dictGet?,
    dictGetOpt?, numOr, errCount, warnCount, c1CB, c1CA, c1P1, c1P2, c1P3,
    List.filterMap_cons, List.filterMap_nil, List.foldl_cons,
    List.foldl_nil, List.find?, List.any_nil, List.countP_cons, List.countP_nil,
    max_eq_right]

set_option maxHeartbeats 1600000 in
/-- **C1** is false of the code as written: in the two-client store
`c1Db` (A eligible with two warnings, B eligible with one warning) the
persisted `RunSummary` has `n_errors = 0` and `audit_score = 70`, so the
claimed formula `gate_export = (n_errors == 0) ∧ (audit_score ≥ 80)`
yields `false` — yet the stored `gate_export` is `true`.  The summary
dict literal of `generate_recommendations_run` lists the `gate_export`
key twice (lines 490–491); the second entry, `eligible == len(clients)`,
silently overwrites the documented formula. -/
theorem gate_export_ignores_audit_formula :
    (generateRecommendationsRun c1Db 1 3 7 20000 "r1" 1).summary.gate_export = true ∧
    (generateRecommendationsRun c1Db 1 3 7 20000 "r1" 1).summary.n_errors = 0 ∧
    (generateRecommendationsRun c1Db 1 3 7 20000 "r1" 1).summary.audit_score = 70 ∧
    (generateRecommendationsRun c1Db 1 3 7 20000 "r1" 1).summary.gate_export ≠
      decide ((generateRecommendationsRun c1Db 1 3 7 20000 "r1" 1).summary.n_errors = 0 ∧
        (80 : ℚ) ≤ (generateRecommendationsRun c1Db 1 3 7 20000 "r1" 1).summary.audit_score) := by
  have H : (generateRecommendationsRun c1Db 1 3 7 20000 "r1" 1).summary.gate_export = true ∧
      (generateRecommendationsRun c1Db 1 3 7 20000 "r1" 1).summary.n_errors = 0 ∧
      (generateRecommendationsRun c1Db 1 3 7 20000 "r1" 1).summary.audit_score = 70 := by
    have hclients : List.filter (fun c : Client => c.tenant_id == 1) [c1CA, c1CB] = [c1CA, c1CB] := by decide
    have hsalesf : List.filter (fun s : Sale => s.tenant_id == 1) [c1S1, c1S2, c1S3] = [c1S1, c1S2, c1S3] := by decide
    have hprodf : List.filter (fun p : Product => p.tenant_id == 1) [c1P1, c1P2, c1P3] = [c1P1, c1P2, c1P3] := by decide
    have hpm : mkProductMap [c1P1, c1P2, c1P3] = [("Q1", c1P1), ("Q2", c1P2), ("Q3", c1P3)] := by
      have b1 : ¬("Q1" = "") := by decide
      have b2 : ¬("Q2" = "") := by decide
      have b3 : ¬("Q3" = "") := by decide
      have b4 : ¬("Q1" = "Q2") := by decide
      have b5 : ¬("Q1" = "Q3") := by decide
      have b6 : ¬("Q2" = "Q3") := by decide
      simp only [mkProductMap, dictInsert, List.foldl_cons, List.foldl_nil, c1P1, c1P2, c1P3]
      norm_num [b1, b2, b3, b4, b5, b6]
    have hpop : productPopularity [c1S1, c1S2, c1S3] = [("Q1", 1), ("Q2", 1), ("Q3", 1)] := by
      have b1 : ¬("Q1" = "") := by decide
      have b2 : ¬("Q2" = "") := by decide
      have b3 : ¬("Q3" = "") := by decide
      have b4 : ¬("Q2" = "Q1") := by decide
      have b5 : ¬("Q3" = "Q1") := by decide
      have b6 : ¬("Q3" = "Q2") := by decide
      have b7 : ¬("Q1" = "Q3") := by decide
      have b8 : ¬("Q2" = "Q3") := by decide
      have b9 : ¬("Q1" = "Q2") := by decide
      norm_num [productPopularity, bumpCounter, numOr, c1S1, c1S2, c1S3, b1, b2,
        b3, b4, b5, b6, b7, b8, b9, List.foldl_cons, List.foldl_nil]
    have hpurchA : List.filter (fun s : Sale => s.client_code == "A") [c1S1, c1S2, c1S3] = [c1S1, c1S2, c1S3] := by decide
    have hpurchB : List.filter (fun s : Sale => s.client_code == "B") [c1S1, c1S2, c1S3] = [] := by decide
    have hccA : c1CA.client_code = "A" := rfl
    have hccB : c1CB.client_code = "B" := rfl
    have hsev1 : (Severity.warn == Severity.error) = false := by decide
    have hsev2 : (Severity.warn != Severity.error) = true := by decide
    norm_num [generateRecommendationsRun, c1Db, processClient, hclients, hsalesf,
      hprodf, hpm, hpop, hpurchA, hpurchB, hccA, hccB, c1_buildA, c1_buildB,
      c1_auditA, c1_auditB, hsev1, hsev2, List.countP_cons, List.countP_nil,
      max_eq_right]
  refine ⟨H.1, H.2.1, H.2.2, ?_⟩
  rw [H.1, H.2.1, H.2.2]
  have hnot : ¬((0 : ℕ) = 0 ∧ (80 : ℚ) ≤ 70) := by norm_num
  simp [hnot]
  norm_num

end IaCrm
